import Mathlib

/-!
Verification of the Concur profile wire-protocol adapter
(`src/concur_profile_sdk.py`, with the near-duplicate variant
`src/concur_profile_sdk_improved.py` where a claim cites it).

The development is a shallow embedding: XML documents built with lxml are
modelled by the `Xml` tree type below, Python dataclasses become Lean
structures with the same field names and defaults, the encoder methods
(`to_xml_element`, `TravelProfile.to_update_xml`, the private section writer
`_add_sections_to_xml` rendered here as `add_sections_to_xml`) and the decoder
(`ConcurSDK._parse_travel_profile_xml`, rendered `parse_travel_profile_xml`)
are translated statement by statement, and the session manager
(`_authenticate`, `_ensure_authenticated`, `_make_travel_profile_request`,
`_make_identity_request`, `create_user_identity`,
`get_current_user_travel_profile`) is modelled as pure state passing with the
HTTP transport and the OAuth token endpoint supplied as explicit inputs.
-/

set_option maxHeartbeats 1000000

namespace ConcurSpec

/-! ### XML document model

`lxml.etree` elements as used by the SDK: a tag, an attribute list, optional
text, and a list of child elements.  `find?`, `findtextD` and `findall` model
`Element.find`, `Element.findtext` (with an explicit default; CPython returns
the empty string when the matched element has no text) and `Element.findall`,
all of which the SDK only ever applies to direct children. -/

inductive Xml where
  | elem (tag : String) (attrs : List (String × String)) (text : Option String)
      (children : List Xml)

def Xml.tag : Xml → String
  | .elem t _ _ _ => t

def Xml.attrs : Xml → List (String × String)
  | .elem _ a _ _ => a

def Xml.text : Xml → Option String
  | .elem _ _ tx _ => tx

def Xml.children : Xml → List Xml
  | .elem _ _ _ c => c

def Xml.find? (x : Xml) (t : String) : Option Xml :=
  x.children.find? (fun c => c.tag == t)

def Xml.findtextD (x : Xml) (t dflt : String) : String :=
  match x.find? t with
  | some c => c.text.getD ""
  | none => dflt

def Xml.findall (x : Xml) (t : String) : List Xml :=
  x.children.filter (fun c => c.tag == t)

/-- `Element.get(key, default)` on the attribute list. -/
def Xml.attrD (x : Xml) (k dflt : String) : String :=
  match x.attrs.find? (fun p => p.1 == k) with
  | some p => p.2
  | none => dflt

/-- Python boolean serialization used throughout the encoder:
`"true" if b else "false"`. -/
def boolStr (b : Bool) : String := if b then "true" else "false"

/-! ### Calendar dates

The SDK stores `datetime.date` values and serializes them with
`strftime("%Y-%m-%d")`; the decoder parses with
`datetime.strptime(s, "%Y-%m-%d").date()` and drops the field on
`ValueError`.  `PyDate.valid` captures the invariant of Python `date`
objects (restricted to four-digit years, for which `%Y` zero-pads).
`strToDate` models `strptime` on the canonical zero-padded form that
`strftime` produces, returning `none` where `strptime` raises. -/

structure PyDate where
  year : Nat
  month : Nat
  day : Nat
deriving DecidableEq, Repr

def isLeapYear (y : Nat) : Bool :=
  (y % 4 == 0 && y % 100 != 0) || (y % 400 == 0)

def daysInMonth (y m : Nat) : Nat :=
  if m == 2 then (if isLeapYear y then 29 else 28)
  else if m == 4 || m == 6 || m == 9 || m == 11 then 30
  else 31

def PyDate.valid (d : PyDate) : Prop :=
  1000 ≤ d.year ∧ d.year ≤ 9999 ∧ 1 ≤ d.month ∧ d.month ≤ 12 ∧
    1 ≤ d.day ∧ d.day ≤ daysInMonth d.year d.month

instance (d : PyDate) : Decidable d.valid := by
  unfold PyDate.valid; infer_instance

def digitChar (n : Nat) : Char :=
  match n with
  | 0 => '0' | 1 => '1' | 2 => '2' | 3 => '3' | 4 => '4'
  | 5 => '5' | 6 => '6' | 7 => '7' | 8 => '8' | _ => '9'

def digitVal (c : Char) : Option Nat :=
  if 48 ≤ c.toNat && c.toNat ≤ 57 then some (c.toNat - 48) else none

def pad2 (n : Nat) : List Char :=
  [digitChar (n / 10 % 10), digitChar (n % 10)]

def pad4 (n : Nat) : List Char :=
  [digitChar (n / 1000 % 10), digitChar (n / 100 % 10),
   digitChar (n / 10 % 10), digitChar (n % 10)]

def dateToStr (d : PyDate) : String :=
  String.mk (pad4 d.year ++ '-' :: (pad2 d.month ++ '-' :: pad2 d.day))

def strToDate (s : String) : Option PyDate :=
  match s.data with
  | [y1, y2, y3, y4, c1, m1, m2, c2, d1, d2] =>
    if c1 == '-' && c2 == '-' then
      match digitVal y1, digitVal y2, digitVal y3, digitVal y4,
            digitVal m1, digitVal m2, digitVal d1, digitVal d2 with
      | some a, some b, some c, some e, some f, some g, some h, some i =>
        let year := 1000 * a + 100 * b + 10 * c + e
        let month := 10 * f + g
        let day := 10 * h + i
        if 1 ≤ month ∧ month ≤ 12 ∧ 1 ≤ day ∧ day ≤ daysInMonth year month then
          some ⟨year, month, day⟩
        else none
      | _, _, _, _, _, _, _, _ => none
    else none
  | _ => none

theorem digitVal_digitChar (k : Nat) (h : k < 10) :
    digitVal (digitChar k) = some k := by
  interval_cases k <;> rfl

theorem daysInMonth_le_31 (y m : Nat) : daysInMonth y m ≤ 31 := by
  unfold daysInMonth
  split
  · split <;> omega
  · split <;> omega

theorem strToDate_dateToStr (d : PyDate) (h : d.valid) :
    strToDate (dateToStr d) = some d := by
  obtain ⟨hy1, hy2, hm1, hm2, hd1, hd2⟩ := h
  have hd31 : d.day ≤ 31 := le_trans hd2 (daysInMonth_le_31 _ _)
  have e1 := digitVal_digitChar (d.year / 1000 % 10) (Nat.mod_lt _ (by omega))
  have e2 := digitVal_digitChar (d.year / 100 % 10) (Nat.mod_lt _ (by omega))
  have e3 := digitVal_digitChar (d.year / 10 % 10) (Nat.mod_lt _ (by omega))
  have e4 := digitVal_digitChar (d.year % 10) (Nat.mod_lt _ (by omega))
  have e5 := digitVal_digitChar (d.month / 10 % 10) (Nat.mod_lt _ (by omega))
  have e6 := digitVal_digitChar (d.month % 10) (Nat.mod_lt _ (by omega))
  have e7 := digitVal_digitChar (d.day / 10 % 10) (Nat.mod_lt _ (by omega))
  have e8 := digitVal_digitChar (d.day % 10) (Nat.mod_lt _ (by omega))
  have hyr : 1000 * (d.year / 1000 % 10) + 100 * (d.year / 100 % 10) +
      10 * (d.year / 10 % 10) + d.year % 10 = d.year := by
    have a1 : d.year % 10 + 10 * (d.year / 10) = d.year := Nat.mod_add_div _ _
    have a2 : d.year / 10 % 10 + 10 * (d.year / 10 / 10) = d.year / 10 :=
      Nat.mod_add_div _ _
    have a3 : d.year / 10 / 10 = d.year / 100 := by
      rw [Nat.div_div_eq_div_mul]
    have a4 : d.year / 100 % 10 + 10 * (d.year / 100 / 10) = d.year / 100 :=
      Nat.mod_add_div _ _
    have a5 : d.year / 100 / 10 = d.year / 1000 := by
      rw [Nat.div_div_eq_div_mul]
    have a6 : d.year / 1000 % 10 = d.year / 1000 := Nat.mod_eq_of_lt (by omega)
    rw [a6]
    omega
  have hmo : 10 * (d.month / 10 % 10) + d.month % 10 = d.month := by omega
  have hda : 10 * (d.day / 10 % 10) + d.day % 10 = d.day := by omega
  simp only [strToDate, dateToStr, pad4, pad2, List.cons_append, List.nil_append,
    e1, e2, e3, e4, e5, e6, e7, e8]
  simp only [hyr, hmo, hda]
  rw [if_pos (by decide), if_pos ⟨hm1, hm2, hd1, hd2⟩]

/-! ### Enumerated vocabularies (Travel Profile v2 enums of the SDK)

Each Python `str`-Enum becomes an inductive with `val` (the `.value` wire
string) and `ofVal` (the `Enum(text)` constructor call, returning `none`
where Python raises `ValueError`). -/

inductive VisaType where
  | unknown | singleEntry | doubleEntry | multiEntry | entryStamp
  | entryToken | specialHandling
deriving DecidableEq, Repr

def VisaType.val : VisaType → String
  | .unknown => "Unknown" | .singleEntry => "SE" | .doubleEntry => "DE"
  | .multiEntry => "ME" | .entryStamp => "ES" | .entryToken => "ET"
  | .specialHandling => "SH"

def VisaType.ofVal (s : String) : Option VisaType :=
  if s == "Unknown" then some .unknown
  else if s == "SE" then some .singleEntry
  else if s == "DE" then some .doubleEntry
  else if s == "ME" then some .multiEntry
  else if s == "ES" then some .entryStamp
  else if s == "ET" then some .entryToken
  else if s == "SH" then some .specialHandling
  else none

theorem visaType_ofVal_val (x : VisaType) : VisaType.ofVal x.val = some x := by
  cases x <;> rfl

inductive LoyaltyProgramType where
  | air | hotel | car | rail
deriving DecidableEq, Repr

def LoyaltyProgramType.val : LoyaltyProgramType → String
  | .air => "Air" | .hotel => "Hotel" | .car => "Car" | .rail => "Rail"

def LoyaltyProgramType.ofVal (s : String) : Option LoyaltyProgramType :=
  if s == "Air" then some .air
  else if s == "Hotel" then some .hotel
  else if s == "Car" then some .car
  else if s == "Rail" then some .rail
  else none

inductive SeatPreference where
  | window | aisle | middle | dontCare
deriving DecidableEq, Repr

def SeatPreference.val : SeatPreference → String
  | .window => "Window" | .aisle => "Aisle" | .middle => "Middle"
  | .dontCare => "DontCare"

def SeatPreference.ofVal (s : String) : Option SeatPreference :=
  if s == "Window" then some .window
  else if s == "Aisle" then some .aisle
  else if s == "Middle" then some .middle
  else if s == "DontCare" then some .dontCare
  else none

theorem seatPreference_ofVal_val (x : SeatPreference) :
    SeatPreference.ofVal x.val = some x := by
  cases x <;> rfl

inductive SeatSection where
  | bulkhead | forward | rear | exitRow | dontCare
deriving DecidableEq, Repr

def SeatSection.val : SeatSection → String
  | .bulkhead => "Bulkhead" | .forward => "Forward" | .rear => "Rear"
  | .exitRow => "ExitRow" | .dontCare => "DontCare"

def SeatSection.ofVal (s : String) : Option SeatSection :=
  if s == "Bulkhead" then some .bulkhead
  else if s == "Forward" then some .forward
  else if s == "Rear" then some .rear
  else if s == "ExitRow" then some .exitRow
  else if s == "DontCare" then some .dontCare
  else none

theorem seatSection_ofVal_val (x : SeatSection) :
    SeatSection.ofVal x.val = some x := by
  cases x <;> rfl

inductive MealType where
  | bland | child | diabetic | fruitPlatter | glutenFree | hindu | baby
  | kosher | lowCalorie | lowSalt | muslim | noSalt | noLactose | peanutFree
  | seafood | vegetarianLacto | vegetarian | kosherVegetarian | rawVegetarian
  | asianVegetarian
deriving DecidableEq, Repr

def MealType.val : MealType → String
  | .bland => "BLML" | .child => "CHML" | .diabetic => "DBML"
  | .fruitPlatter => "FPML" | .glutenFree => "GFML" | .hindu => "HNML"
  | .baby => "BBML" | .kosher => "KSML" | .lowCalorie => "LCML"
  | .lowSalt => "LSML" | .muslim => "MOML" | .noSalt => "NSML"
  | .noLactose => "NLML" | .peanutFree => "PFML" | .seafood => "SFML"
  | .vegetarianLacto => "VLML" | .vegetarian => "VGML"
  | .kosherVegetarian => "KVML" | .rawVegetarian => "RVML"
  | .asianVegetarian => "AVML"

def MealType.ofVal (s : String) : Option MealType :=
  if s == "BLML" then some .bland
  else if s == "CHML" then some .child
  else if s == "DBML" then some .diabetic
  else if s == "FPML" then some .fruitPlatter
  else if s == "GFML" then some .glutenFree
  else if s == "HNML" then some .hindu
  else if s == "BBML" then some .baby
  else if s == "KSML" then some .kosher
  else if s == "LCML" then some .lowCalorie
  else if s == "LSML" then some .lowSalt
  else if s == "MOML" then some .muslim
  else if s == "NSML" then some .noSalt
  else if s == "NLML" then some .noLactose
  else if s == "PFML" then some .peanutFree
  else if s == "SFML" then some .seafood
  else if s == "VLML" then some .vegetarianLacto
  else if s == "VGML" then some .vegetarian
  else if s == "KVML" then some .kosherVegetarian
  else if s == "RVML" then some .rawVegetarian
  else if s == "AVML" then some .asianVegetarian
  else none

theorem mealType_ofVal_val (x : MealType) : MealType.ofVal x.val = some x := by
  cases x <;> rfl

inductive HotelRoomType where
  | king | queen | double | twin | single | disability | dontCare
deriving DecidableEq, Repr

def HotelRoomType.val : HotelRoomType → String
  | .king => "King" | .queen => "Queen" | .double => "Double" | .twin => "Twin"
  | .single => "Single" | .disability => "Disability" | .dontCare => "DontCare"

def HotelRoomType.ofVal (s : String) : Option HotelRoomType :=
  if s == "King" then some .king
  else if s == "Queen" then some .queen
  else if s == "Double" then some .double
  else if s == "Twin" then some .twin
  else if s == "Single" then some .single
  else if s == "Disability" then some .disability
  else if s == "DontCare" then some .dontCare
  else none

theorem hotelRoomType_ofVal_val (x : HotelRoomType) :
    HotelRoomType.ofVal x.val = some x := by
  cases x <;> rfl

inductive SmokingPreference where
  | nonSmoking | smoking | dontCare
deriving DecidableEq, Repr

def SmokingPreference.val : SmokingPreference → String
  | .nonSmoking => "NonSmoking" | .smoking => "Smoking" | .dontCare => "DontCare"

def SmokingPreference.ofVal (s : String) : Option SmokingPreference :=
  if s == "NonSmoking" then some .nonSmoking
  else if s == "Smoking" then some .smoking
  else if s == "DontCare" then some .dontCare
  else none

theorem smokingPreference_ofVal_val (x : SmokingPreference) :
    SmokingPreference.ofVal x.val = some x := by
  cases x <;> rfl

inductive CarType where
  | economy | compact | intermediate | standard | fullSize | premium | luxury
  | suv | miniVan | convertible | dontCare
deriving DecidableEq, Repr

def CarType.val : CarType → String
  | .economy => "Economy" | .compact => "Compact"
  | .intermediate => "Intermediate" | .standard => "Standard"
  | .fullSize => "FullSize" | .premium => "Premium" | .luxury => "Luxury"
  | .suv => "SUV" | .miniVan => "MiniVan" | .convertible => "Convertible"
  | .dontCare => "DontCare"

def CarType.ofVal (s : String) : Option CarType :=
  if s == "Economy" then some .economy
  else if s == "Compact" then some .compact
  else if s == "Intermediate" then some .intermediate
  else if s == "Standard" then some .standard
  else if s == "FullSize" then some .fullSize
  else if s == "Premium" then some .premium
  else if s == "Luxury" then some .luxury
  else if s == "SUV" then some .suv
  else if s == "MiniVan" then some .miniVan
  else if s == "Convertible" then some .convertible
  else if s == "DontCare" then some .dontCare
  else none

theorem carType_ofVal_val (x : CarType) : CarType.ofVal x.val = some x := by
  cases x <;> rfl

inductive TransmissionType where
  | automatic | manual | dontCare
deriving DecidableEq, Repr

def TransmissionType.val : TransmissionType → String
  | .automatic => "Automatic" | .manual => "Manual" | .dontCare => "DontCare"

def TransmissionType.ofVal (s : String) : Option TransmissionType :=
  if s == "Automatic" then some .automatic
  else if s == "Manual" then some .manual
  else if s == "DontCare" then some .dontCare
  else none

theorem transmissionType_ofVal_val (x : TransmissionType) :
    TransmissionType.ofVal x.val = some x := by
  cases x <;> rfl

/-! ### Domain model (`concur_profile_sdk.py` dataclasses)

Field names, types and default values follow the Python dataclasses.
Python string truthiness (`if self.x:`) becomes `≠ ""` and list truthiness
becomes `≠ []`; `Optional[...]` fields become `Option`. -/

structure NationalID where
  id_number : String
  country_code : String
deriving DecidableEq, Repr

structure DriversLicense where
  license_number : String
  country_code : String
  state_province : String := ""
deriving DecidableEq, Repr

structure Passport where
  doc_number : String
  nationality : String
  issue_country : String
  issue_date : Option PyDate := none
  expiration_date : Option PyDate := none
  primary : Bool := false
deriving DecidableEq, Repr

structure Visa where
  visa_nationality : String
  visa_number : String
  visa_type : VisaType
  visa_country_issued : String
  visa_date_issued : Option PyDate := none
  visa_expiration : Option PyDate := none
deriving DecidableEq, Repr

structure TSAInfo where
  known_traveler_number : String := ""
  gender : String := ""
  date_of_birth : Option PyDate := none
  redress_number : String := ""
  no_middle_name : Bool := false
deriving DecidableEq, Repr

structure LoyaltyProgram where
  program_type : LoyaltyProgramType
  vendor_code : String
  account_number : String
  status : String := ""
  status_benefits : String := ""
  point_total : String := ""
  segment_total : String := ""
  next_status : String := ""
  points_until_next_status : String := ""
  segments_until_next_status : String := ""
  expiration : Option PyDate := none
deriving DecidableEq, Repr

structure RatePreference where
  aaa_rate : Bool := false
  aarp_rate : Bool := false
  govt_rate : Bool := false
  military_rate : Bool := false
deriving DecidableEq, Repr

structure DiscountCode where
  vendor : String
  code : String
deriving DecidableEq, Repr

structure AirPreferences where
  seat_preference : Option SeatPreference := none
  seat_section : Option SeatSection := none
  meal_preference : Option MealType := none
  home_airport : String := ""
  air_other : String := ""
  memberships : List LoyaltyProgram := []
deriving DecidableEq, Repr

structure HotelPreferences where
  smoking_preference : Option SmokingPreference := none
  room_type : Option HotelRoomType := none
  hotel_other : String := ""
  prefer_foam_pillows : Bool := false
  prefer_crib : Bool := false
  prefer_rollaway_bed : Bool := false
  prefer_gym : Bool := false
  prefer_pool : Bool := false
  prefer_restaurant : Bool := false
  prefer_room_service : Bool := false
  prefer_early_checkin : Bool := false
  memberships : List LoyaltyProgram := []
deriving DecidableEq, Repr

structure CarPreferences where
  car_type : Option CarType := none
  transmission : Option TransmissionType := none
  smoking_preference : Option SmokingPreference := none
  gps : Bool := false
  ski_rack : Bool := false
  memberships : List LoyaltyProgram := []
deriving DecidableEq, Repr

structure RailPreferences where
  seat : String := ""
  coach : String := ""
  noise_comfort : String := ""
  bed : String := ""
  bed_category : String := ""
  berth : String := ""
  deck : String := ""
  space_type : String := ""
  fare_space_comfort : String := ""
  special_meals : String := ""
  contingencies : String := ""
  memberships : List LoyaltyProgram := []
deriving DecidableEq, Repr

structure CustomField where
  field_id : String
  value : String
  field_type : String := "Text"
deriving DecidableEq, Repr

structure UnusedTicket where
  ticket_number : String
  airline_code : String
  amount : String := ""
  currency : String := "USD"
deriving DecidableEq, Repr

structure TravelProfile where
  login_id : String
  rule_class : String := "Default Travel Class"
  travel_config_id : String := ""
  national_ids : List NationalID := []
  drivers_licenses : List DriversLicense := []
  has_no_passport : Bool := false
  passports : List Passport := []
  visas : List Visa := []
  tsa_info : Option TSAInfo := none
  rate_preferences : Option RatePreference := none
  discount_codes : List DiscountCode := []
  air_preferences : Option AirPreferences := none
  hotel_preferences : Option HotelPreferences := none
  car_preferences : Option CarPreferences := none
  rail_preferences : Option RailPreferences := none
  custom_fields : List CustomField := []
  unused_tickets : List UnusedTicket := []
  southwest_unused_tickets : List UnusedTicket := []
  loyalty_programs : List LoyaltyProgram := []
deriving DecidableEq, Repr

/-! ### Encoder (`to_xml_element` methods and `TravelProfile.to_update_xml`)

Python builds elements by mutating a parent (`etree.SubElement`); here each
encoder returns the element (or the list of elements) it would attach, in
the order the statements execute.  `optChild cond x` is the
`if cond: etree.SubElement(...)` pattern. -/

def textElem (tag s : String) : Xml := .elem tag [] (some s) []

def optChild (cond : Bool) (x : Xml) : List Xml := if cond then [x] else []

def optMap {α : Type} (o : Option α) (f : α → Xml) : List Xml :=
  match o with
  | some v => [f v]
  | none => []

def NationalID.to_xml_element (x : NationalID) : Xml :=
  .elem "NationalID" [] none
    [textElem "NationalIDNumber" x.id_number,
     textElem "IssuingCountry" x.country_code]

def DriversLicense.to_xml_element (x : DriversLicense) : Xml :=
  .elem "DriversLicense" [] none
    ([textElem "DriversLicenseNumber" x.license_number,
      textElem "IssuingCountry" x.country_code] ++
     optChild (x.state_province != "") (textElem "IssuingState" x.state_province))

def Passport.to_xml_element (x : Passport) : Xml :=
  .elem "Passport" [] none
    ([textElem "PassportNumber" x.doc_number,
      textElem "PassportNationality" x.nationality,
      textElem "PassportCountryIssued" x.issue_country] ++
     optMap x.issue_date (fun d => textElem "PassportDateIssued" (dateToStr d)) ++
     optMap x.expiration_date (fun d => textElem "PassportExpiration" (dateToStr d)))

def Visa.to_xml_element (x : Visa) : Xml :=
  .elem "Visa" [] none
    ([textElem "VisaNationality" x.visa_nationality,
      textElem "VisaNumber" x.visa_number,
      textElem "VisaType" x.visa_type.val] ++
     optMap x.visa_date_issued (fun d => textElem "VisaDateIssued" (dateToStr d)) ++
     optMap x.visa_expiration (fun d => textElem "VisaExpiration" (dateToStr d)) ++
     [textElem "VisaCountryIssued" x.visa_country_issued])

/-- ASCII `str.upper()` (the encoder only uppercases single-letter gender
codes).  Defined by structural recursion so that it evaluates in the kernel,
unlike `String.toUpper`. -/
def upperChar (c : Char) : Char :=
  if 97 ≤ c.toNat ∧ c.toNat ≤ 122 then Char.ofNat (c.toNat - 32) else c

def strUpper (s : String) : String := String.mk (s.data.map upperChar)

/-- Gender normalization in `TSAInfo.to_xml_element`: single-letter codes are
expanded, the five schema values pass through, anything else becomes
`"Unknown"`. -/
def normalizeGender (g : String) : String :=
  if strUpper g == "M" then "Male"
  else if strUpper g == "F" then "Female"
  else if g == "Male" || g == "Female" || g == "Undisclosed" || g == "Unknown"
      || g == "Unspecified" then g
  else "Unknown"

def TSAInfo.to_xml_element (x : TSAInfo) : Xml :=
  .elem "TSAInfo" [] none
    (optChild (x.gender != "") (textElem "Gender" (normalizeGender x.gender)) ++
     optMap x.date_of_birth (fun d => textElem "DateOfBirth" (dateToStr d)) ++
     [textElem "NoMiddleName" (boolStr x.no_middle_name)] ++
     optChild (x.known_traveler_number != "")
       (textElem "PreCheckNumber" x.known_traveler_number) ++
     optChild (x.redress_number != "") (textElem "RedressNumber" x.redress_number))

def LoyaltyProgram.to_xml_element (x : LoyaltyProgram)
    (membership_type : String := "Membership") : Xml :=
  if membership_type == "Membership" then
    -- Profile v2 AdvantageMemberships shape
    .elem membership_type [] none
      ([textElem "VendorCode" x.vendor_code,
        textElem "VendorType" x.program_type.val,
        textElem "ProgramNumber" x.account_number,
        textElem "ProgramCode" x.vendor_code] ++
       optMap x.expiration (fun d => textElem "ExpirationDate" (dateToStr d)))
  else
    -- Loyalty v1 shape
    .elem membership_type [] none
      ([textElem "VendorCode" x.vendor_code,
        textElem "AccountNo" x.account_number] ++
       optChild (x.status != "") (textElem "Status" x.status) ++
       optChild (x.status_benefits != "")
         (textElem "StatusBenefits" x.status_benefits) ++
       optChild (x.point_total != "") (textElem "PointTotal" x.point_total) ++
       optChild (x.segment_total != "")
         (textElem "SegmentTotal" x.segment_total) ++
       optChild (x.next_status != "") (textElem "NextStatus" x.next_status) ++
       optChild (x.points_until_next_status != "")
         (textElem "PointsUntilNextStatus" x.points_until_next_status) ++
       optChild (x.segments_until_next_status != "")
         (textElem "SegmentsUntilNextStatus" x.segments_until_next_status) ++
       optMap x.expiration (fun d => textElem "Expiration" (dateToStr d)))

def RatePreference.to_xml_element (x : RatePreference) : Xml :=
  .elem "RatePreferences" [] none
    [textElem "AAARate" (boolStr x.aaa_rate),
     textElem "AARPRate" (boolStr x.aarp_rate),
     textElem "GovtRate" (boolStr x.govt_rate),
     textElem "MilitaryRate" (boolStr x.military_rate)]

def DiscountCode.to_xml_element (x : DiscountCode) : Xml :=
  .elem "DiscountCode" [("Vendor", x.vendor)] (some x.code) []

def AirPreferences.to_xml_element (x : AirPreferences) : Xml :=
  let has_seat_prefs := x.seat_preference.isSome || x.seat_section.isSome
  let has_other_air_prefs :=
    x.home_airport != "" || x.air_other != "" || x.meal_preference.isSome
  .elem "Air" [] none
    (optChild (has_seat_prefs || has_other_air_prefs)
       (.elem "Seat" [] none
         (optMap x.seat_preference
            (fun p => textElem "InterRowPositionCode" p.val) ++
          optMap x.seat_section
            (fun p => textElem "SectionPositionCode" p.val))) ++
     optMap x.meal_preference (fun m => textElem "MealCode" m.val) ++
     optChild (x.home_airport != "") (textElem "HomeAirport" x.home_airport) ++
     optChild (x.air_other != "") (textElem "AirOther" x.air_other))

/-- The `has_preferences` guard of `HotelPreferences.to_xml_element`
(note that it counts the two denylisted fields and ignores memberships). -/
def HotelPreferences.has_preferences (x : HotelPreferences) : Bool :=
  x.smoking_preference.isSome || x.room_type.isSome || x.hotel_other != "" ||
  x.prefer_foam_pillows || x.prefer_crib || x.prefer_rollaway_bed ||
  x.prefer_gym || x.prefer_pool || x.prefer_restaurant ||
  x.prefer_room_service || x.prefer_early_checkin

/-- The children the hotel encoder writes (`SmokingCode` and
`PreferRestaraunt` are deliberately never emitted). -/
def HotelPreferences.xml_children (x : HotelPreferences) : List Xml :=
  [Xml.elem "HotelMemberships" [] none []] ++
  optMap x.room_type (fun r => textElem "RoomType" r.val) ++
  optChild (x.hotel_other != "") (textElem "HotelOther" x.hotel_other) ++
  optChild x.prefer_foam_pillows (textElem "PreferFoamPillows" "true") ++
  optChild x.prefer_crib (textElem "PreferCrib" "true") ++
  optChild x.prefer_rollaway_bed (textElem "PreferRollawayBed" "true") ++
  optChild x.prefer_gym (textElem "PreferGym" "true") ++
  optChild x.prefer_pool (textElem "PreferPool" "true") ++
  optChild x.prefer_room_service (textElem "PreferRoomService" "true") ++
  optChild x.prefer_early_checkin (textElem "PreferEarlyCheckIn" "true")

def HotelPreferences.to_xml_element (x : HotelPreferences) : Option Xml :=
  if x.has_preferences then some (.elem "Hotel" [] none x.xml_children)
  else none

def CarPreferences.has_preferences (x : CarPreferences) : Bool :=
  x.car_type.isSome || x.transmission.isSome || x.smoking_preference.isSome ||
  x.gps || x.ski_rack

def CarPreferences.to_xml_element (x : CarPreferences) : Option Xml :=
  if x.has_preferences then
    some (.elem "Car" [] none
      (optMap x.car_type (fun c => textElem "CarType" c.val) ++
       optMap x.transmission (fun t => textElem "CarTransmission" t.val) ++
       optMap x.smoking_preference (fun s => textElem "CarSmokingCode" s.val) ++
       optChild x.gps (textElem "CarGPS" "true") ++
       optChild x.ski_rack (textElem "CarSkiRack" "true")))
  else none

def RailPreferences.to_xml_element (x : RailPreferences) : Xml :=
  .elem "Rail" [] none
    (optChild (x.seat != "") (textElem "Seat" x.seat) ++
     optChild (x.coach != "") (textElem "Coach" x.coach) ++
     optChild (x.noise_comfort != "") (textElem "NoiseComfort" x.noise_comfort) ++
     optChild (x.bed != "") (textElem "Bed" x.bed) ++
     optChild (x.bed_category != "") (textElem "BedCategory" x.bed_category) ++
     optChild (x.berth != "") (textElem "Berth" x.berth) ++
     optChild (x.deck != "") (textElem "Deck" x.deck) ++
     optChild (x.space_type != "") (textElem "SpaceType" x.space_type) ++
     optChild (x.fare_space_comfort != "")
       (textElem "FareSpaceComfort" x.fare_space_comfort) ++
     optChild (x.special_meals != "") (textElem "SpecialMeals" x.special_meals) ++
     optChild (x.contingencies != "")
       (textElem "Contingencies" x.contingencies))

def CustomField.to_xml_element (x : CustomField) : Xml :=
  .elem "CustomField" [("Name", x.field_id)] (some x.value) []

def UnusedTicket.to_xml_element (x : UnusedTicket) : Xml :=
  .elem "UnusedTicket" [] none
    ([textElem "TicketNumber" x.ticket_number,
      textElem "AirlineCode" x.airline_code] ++
     optChild (x.amount != "") (textElem "Amount" x.amount) ++
     optChild (x.currency != "") (textElem "Currency" x.currency))

/-- `AirPreferences.to_xml_element` of the near-duplicate
`concur_profile_sdk_improved.py` (lines 512-542): it emits the `Seat`
container only when a seat position or section is set, unlike the primary
SDK which also emits it for the other air fields. -/
def ImprovedAir.to_xml_element (x : AirPreferences) : Xml :=
  .elem "Air" [] none
    (optChild (x.seat_preference.isSome || x.seat_section.isSome)
       (.elem "Seat" [] none
         (optMap x.seat_preference
            (fun p => textElem "InterRowPositionCode" p.val) ++
          optMap x.seat_section
            (fun p => textElem "SectionPositionCode" p.val))) ++
     optMap x.meal_preference (fun m => textElem "MealCode" m.val) ++
     optChild (x.home_airport != "") (textElem "HomeAirport" x.home_airport) ++
     optChild (x.air_other != "") (textElem "AirOther" x.air_other))

/-- The `if not fields_to_update or name in fields_to_update:` guard used by
every non-General section of `_add_sections_to_xml` (the General section
instead tests `any(f in fields_to_update for f in general_fields)`). -/
def fieldSel (fields : List String) (name : String) : Bool :=
  fields.isEmpty || fields.contains name

/-! `_add_sections_to_xml` appends the sections below to the root in this
order; each `section...` definition is the corresponding consecutive block of
the Python method body. -/

def sectionGeneral (p : TravelProfile) (fields : List String) : List Xml :=
  optChild (["rule_class", "travel_config_id"].any (fun f => fields.contains f))
    (.elem "General" [] none
      (optChild (fields.contains "rule_class" && p.rule_class != "")
         (textElem "RuleClass" p.rule_class) ++
       optChild (fields.contains "travel_config_id" && p.travel_config_id != "")
         (textElem "TravelConfigID" p.travel_config_id)))

def sectionNationalIDs (p : TravelProfile) (fields : List String) : List Xml :=
  optChild (fieldSel fields "national_ids" && !p.national_ids.isEmpty)
    (.elem "NationalIDs" [] none (p.national_ids.map NationalID.to_xml_element))

def sectionDriversLicenses (p : TravelProfile) (fields : List String) : List Xml :=
  optChild (fieldSel fields "drivers_licenses" && !p.drivers_licenses.isEmpty)
    (.elem "DriversLicenses" [] none
      (p.drivers_licenses.map DriversLicense.to_xml_element))

def sectionHasNoPassport (p : TravelProfile) (fields : List String) : List Xml :=
  optChild (fieldSel fields "has_no_passport" && p.has_no_passport)
    (textElem "HasNoPassport" "true")

def sectionPassports (p : TravelProfile) (fields : List String) : List Xml :=
  optChild (fieldSel fields "passports" && !p.passports.isEmpty)
    (.elem "Passports" [] none (p.passports.map Passport.to_xml_element))

def sectionVisas (p : TravelProfile) (fields : List String) : List Xml :=
  optChild (fieldSel fields "visas" && !p.visas.isEmpty)
    (.elem "Visas" [] none (p.visas.map Visa.to_xml_element))

def sectionRatePreferences (p : TravelProfile) (fields : List String) : List Xml :=
  if fieldSel fields "rate_preferences" then
    optMap p.rate_preferences RatePreference.to_xml_element
  else []

def sectionDiscountCodes (p : TravelProfile) (fields : List String) : List Xml :=
  optChild (fieldSel fields "discount_codes" && !p.discount_codes.isEmpty)
    (.elem "DiscountCodes" [] none
      (p.discount_codes.map DiscountCode.to_xml_element))

def sectionAir (p : TravelProfile) (fields : List String) : List Xml :=
  if fieldSel fields "air_preferences" then
    optMap p.air_preferences AirPreferences.to_xml_element
  else []

def sectionRail (p : TravelProfile) (fields : List String) : List Xml :=
  if fieldSel fields "rail_preferences" then
    optMap p.rail_preferences RailPreferences.to_xml_element
  else []

def sectionCar (p : TravelProfile) (fields : List String) : List Xml :=
  if fieldSel fields "car_preferences" then
    (match p.car_preferences with
     | some c => (CarPreferences.to_xml_element c).toList
     | none => [])
  else []

def sectionHotel (p : TravelProfile) (fields : List String) : List Xml :=
  if fieldSel fields "hotel_preferences" then
    (match p.hotel_preferences with
     | some h => (HotelPreferences.to_xml_element h).toList
     | none => [])
  else []

def sectionCustomFields (p : TravelProfile) (fields : List String) : List Xml :=
  optChild (fieldSel fields "custom_fields" && !p.custom_fields.isEmpty)
    (.elem "CustomFields" [] none
      (p.custom_fields.map CustomField.to_xml_element))

def sectionTSAInfo (p : TravelProfile) (fields : List String) : List Xml :=
  if fieldSel fields "tsa_info" then optMap p.tsa_info TSAInfo.to_xml_element
  else []

def sectionUnusedTickets (p : TravelProfile) (fields : List String) : List Xml :=
  optChild (fieldSel fields "unused_tickets" && !p.unused_tickets.isEmpty)
    (.elem "UnusedTickets" [] none
      (p.unused_tickets.map UnusedTicket.to_xml_element))

def sectionSouthwestUnusedTickets (p : TravelProfile) (fields : List String) :
    List Xml :=
  optChild (fieldSel fields "southwest_unused_tickets" &&
      !p.southwest_unused_tickets.isEmpty)
    (.elem "SouthwestUnusedTickets" [] none
      (p.southwest_unused_tickets.map UnusedTicket.to_xml_element))

def sectionAdvantageMemberships (p : TravelProfile) (fields : List String) :
    List Xml :=
  optChild (fieldSel fields "loyalty_programs" && !p.loyalty_programs.isEmpty)
    (.elem "AdvantageMemberships" [] none
      (p.loyalty_programs.map (fun l => l.to_xml_element "Membership")))

def TravelProfile.add_sections_to_xml (p : TravelProfile)
    (fields_to_update : List String) : List Xml :=
  sectionGeneral p fields_to_update ++
  sectionNationalIDs p fields_to_update ++
  sectionDriversLicenses p fields_to_update ++
  sectionHasNoPassport p fields_to_update ++
  sectionPassports p fields_to_update ++
  sectionVisas p fields_to_update ++
  sectionRatePreferences p fields_to_update ++
  sectionDiscountCodes p fields_to_update ++
  sectionAir p fields_to_update ++
  sectionRail p fields_to_update ++
  sectionCar p fields_to_update ++
  sectionHotel p fields_to_update ++
  sectionCustomFields p fields_to_update ++
  sectionTSAInfo p fields_to_update ++
  sectionUnusedTickets p fields_to_update ++
  sectionSouthwestUnusedTickets p fields_to_update ++
  sectionAdvantageMemberships p fields_to_update

def TravelProfile.get_non_empty_fields (p : TravelProfile) : List String :=
  (if p.rule_class != "" then ["rule_class"] else []) ++
  (if p.travel_config_id != "" then ["travel_config_id"] else []) ++
  (if !p.national_ids.isEmpty then ["national_ids"] else []) ++
  (if !p.drivers_licenses.isEmpty then ["drivers_licenses"] else []) ++
  (if !p.passports.isEmpty then ["passports"] else []) ++
  (if !p.visas.isEmpty then ["visas"] else []) ++
  (if p.tsa_info.isSome then ["tsa_info"] else []) ++
  (if p.rate_preferences.isSome then ["rate_preferences"] else []) ++
  (if !p.discount_codes.isEmpty then ["discount_codes"] else []) ++
  (if p.air_preferences.isSome then ["air_preferences"] else []) ++
  (if p.hotel_preferences.isSome then ["hotel_preferences"] else []) ++
  (if p.car_preferences.isSome then ["car_preferences"] else []) ++
  (if p.rail_preferences.isSome then ["rail_preferences"] else []) ++
  (if !p.custom_fields.isEmpty then ["custom_fields"] else []) ++
  (if !p.unused_tickets.isEmpty then ["unused_tickets"] else []) ++
  (if !p.southwest_unused_tickets.isEmpty then ["southwest_unused_tickets"] else []) ++
  (if !p.loyalty_programs.isEmpty then ["loyalty_programs"] else [])

/-- `TravelProfile.to_update_xml`: the document root (serialization to a byte
string is not modelled; the claims are about the element structure). -/
def TravelProfile.to_update_xml (p : TravelProfile)
    (fields_to_update : Option (List String)) : Xml :=
  let fields := match fields_to_update with
    | some fs => fs
    | none => p.get_non_empty_fields
  .elem "ProfileResponse" [("Action", "Update"), ("LoginId", p.login_id)] none
    (p.add_sections_to_xml fields)

/-! ### Decoder (`ConcurSDK._parse_travel_profile_xml`)

Each Python per-section loop becomes a parse function; `findtext` without a
default followed by `if s:` and a guarded `strptime` becomes `parseDateOpt`,
and the `try: Enum(text) except ValueError: pass` pattern becomes
`Enum.ofVal` guarded by a non-emptiness test. -/

/-- ASCII `str.lower()` (the decoder only lowercases boolean wire tokens).
Defined by structural recursion so that it evaluates in the kernel, unlike
`String.toLower`. -/
def lowerChar (c : Char) : Char :=
  if 65 ≤ c.toNat ∧ c.toNat ≤ 90 then Char.ofNat (c.toNat + 32) else c

def strLower (s : String) : String := String.mk (s.data.map lowerChar)

def parseDateOpt (e : Xml) (tag : String) : Option PyDate :=
  let s := e.findtextD tag ""
  if s != "" then strToDate s else none

def parseNationalID (e : Xml) : NationalID :=
  { id_number := e.findtextD "NationalIDNumber" ""
    country_code := e.findtextD "IssuingCountry" "" }

def parseDriversLicense (e : Xml) : DriversLicense :=
  { license_number := e.findtextD "DriversLicenseNumber" ""
    country_code := e.findtextD "IssuingCountry" ""
    state_province := e.findtextD "IssuingState" "" }

def parsePassport (e : Xml) : Passport :=
  { doc_number := e.findtextD "PassportNumber" ""
    nationality := e.findtextD "PassportNationality" ""
    issue_country := e.findtextD "PassportCountryIssued" ""
    issue_date := parseDateOpt e "PassportDateIssued"
    expiration_date := parseDateOpt e "PassportExpiration" }

def parseVisa (e : Xml) : Visa :=
  { visa_nationality := e.findtextD "VisaNationality" ""
    visa_number := e.findtextD "VisaNumber" ""
    visa_type := (VisaType.ofVal (e.findtextD "VisaType" "Unknown")).getD .unknown
    visa_country_issued := e.findtextD "VisaCountryIssued" ""
    visa_date_issued := parseDateOpt e "VisaDateIssued"
    visa_expiration := parseDateOpt e "VisaExpiration" }

def parseTSAInfo (e : Xml) : TSAInfo :=
  { known_traveler_number := e.findtextD "PreCheckNumber" ""
    gender := e.findtextD "Gender" ""
    date_of_birth := parseDateOpt e "DateOfBirth"
    redress_number := e.findtextD "RedressNumber" ""
    no_middle_name := strLower (e.findtextD "NoMiddleName" "false") == "true" }

def parseRatePreference (e : Xml) : RatePreference :=
  { aaa_rate := strLower (e.findtextD "AAARate" "false") == "true"
    aarp_rate := strLower (e.findtextD "AARPRate" "false") == "true"
    govt_rate := strLower (e.findtextD "GovtRate" "false") == "true"
    military_rate := strLower (e.findtextD "MilitaryRate" "false") == "true" }

def parseDiscountCodes (e : Xml) : List DiscountCode :=
  (e.findall "DiscountCode").filterMap (fun c =>
    let vendor := c.attrD "Vendor" ""
    let code := c.text.getD ""
    if vendor != "" && code != "" then some { vendor := vendor, code := code }
    else none)

def parseAirPreferences (e : Xml) : AirPreferences :=
  let seatPrefs : Option SeatPreference × Option SeatSection :=
    match e.find? "Seat" with
    | some seat_elem =>
      let inter_row := seat_elem.findtextD "InterRowPositionCode" ""
      let sect := seat_elem.findtextD "SectionPositionCode" ""
      ((if inter_row != "" then SeatPreference.ofVal inter_row else none),
       (if sect != "" then SeatSection.ofVal sect else none))
    | none => (none, none)
  let meal_code := e.findtextD "MealCode" ""
  { seat_preference := seatPrefs.1
    seat_section := seatPrefs.2
    meal_preference := if meal_code != "" then MealType.ofVal meal_code else none
    home_airport := e.findtextD "HomeAirport" ""
    air_other := e.findtextD "AirOther" "" }

def parseHotelPreferences (e : Xml) : HotelPreferences :=
  let room_type := e.findtextD "RoomType" ""
  { room_type := if room_type != "" then HotelRoomType.ofVal room_type else none
    hotel_other := e.findtextD "HotelOther" ""
    prefer_foam_pillows := e.findtextD "PreferFoamPillows" "false" == "true"
    prefer_crib := e.findtextD "PreferCrib" "false" == "true"
    prefer_rollaway_bed := e.findtextD "PreferRollawayBed" "false" == "true"
    prefer_gym := e.findtextD "PreferGym" "false" == "true"
    prefer_pool := e.findtextD "PreferPool" "false" == "true"
    prefer_room_service := e.findtextD "PreferRoomService" "false" == "true"
    prefer_early_checkin := e.findtextD "PreferEarlyCheckIn" "false" == "true" }

def parseCarPreferences (e : Xml) : CarPreferences :=
  let car_type := e.findtextD "CarType" ""
  let transmission := e.findtextD "CarTransmission" ""
  let smoking_code := e.findtextD "CarSmokingCode" ""
  { car_type := if car_type != "" then CarType.ofVal car_type else none
    transmission :=
      if transmission != "" then TransmissionType.ofVal transmission else none
    smoking_preference :=
      if smoking_code != "" then SmokingPreference.ofVal smoking_code else none
    gps := e.findtextD "CarGPS" "false" == "true"
    ski_rack := e.findtextD "CarSkiRack" "false" == "true" }

def parseRailPreferences (e : Xml) : RailPreferences :=
  { seat := e.findtextD "Seat" ""
    coach := e.findtextD "Coach" ""
    noise_comfort := e.findtextD "NoiseComfort" ""
    bed := e.findtextD "Bed" ""
    bed_category := e.findtextD "BedCategory" ""
    berth := e.findtextD "Berth" ""
    deck := e.findtextD "Deck" ""
    space_type := e.findtextD "SpaceType" ""
    fare_space_comfort := e.findtextD "FareSpaceComfort" ""
    special_meals := e.findtextD "SpecialMeals" ""
    contingencies := e.findtextD "Contingencies" "" }

def parseCustomFields (e : Xml) : List CustomField :=
  (e.findall "CustomField").filterMap (fun f =>
    let name := f.attrD "Name" ""
    if name != "" then some { field_id := name, value := f.text.getD "" }
    else none)

def parseUnusedTicket (e : Xml) : UnusedTicket :=
  { ticket_number := e.findtextD "TicketNumber" ""
    airline_code := e.findtextD "AirlineCode" ""
    amount := e.findtextD "Amount" ""
    currency := e.findtextD "Currency" "USD" }

/-- `program_type_map.get(vendor_type, LoyaltyProgramType.AIR)`. -/
def programTypeMapGet (s : String) : LoyaltyProgramType :=
  (LoyaltyProgramType.ofVal s).getD .air

def parseMemberships (e : Xml) : List LoyaltyProgram :=
  (e.findall "Membership").filterMap (fun m =>
    let vendor_code := m.findtextD "VendorCode" ""
    let vendor_type := m.findtextD "VendorType" ""
    let program_number := m.findtextD "ProgramNumber" ""
    if vendor_code != "" && vendor_type != "" && program_number != "" then
      some { program_type := programTypeMapGet vendor_type
             vendor_code := vendor_code
             account_number := program_number
             expiration := parseDateOpt m "ExpirationDate" }
    else none)

def ConcurSDK.parse_travel_profile_xml (root : Xml) (login_id : String) :
    TravelProfile :=
  { login_id := login_id
    rule_class := match root.find? "General" with
      | some g => g.findtextD "RuleClass" ""
      | none => "Default Travel Class"
    travel_config_id := match root.find? "General" with
      | some g => g.findtextD "TravelConfigID" ""
      | none => ""
    has_no_passport := strLower (root.findtextD "HasNoPassport" "false") == "true"
    national_ids := match root.find? "NationalIDs" with
      | some e => (e.findall "NationalID").map parseNationalID
      | none => []
    drivers_licenses := match root.find? "DriversLicenses" with
      | some e => (e.findall "DriversLicense").map parseDriversLicense
      | none => []
    passports := match root.find? "Passports" with
      | some e => (e.findall "Passport").map parsePassport
      | none => []
    visas := match root.find? "Visas" with
      | some e => (e.findall "Visa").map parseVisa
      | none => []
    tsa_info := (root.find? "TSAInfo").map parseTSAInfo
    rate_preferences := (root.find? "RatePreferences").map parseRatePreference
    discount_codes := match root.find? "DiscountCodes" with
      | some e => parseDiscountCodes e
      | none => []
    air_preferences := (root.find? "Air").map parseAirPreferences
    hotel_preferences := (root.find? "Hotel").map parseHotelPreferences
    car_preferences := (root.find? "Car").map parseCarPreferences
    rail_preferences := (root.find? "Rail").map parseRailPreferences
    custom_fields := match root.find? "CustomFields" with
      | some e => parseCustomFields e
      | none => []
    unused_tickets := match root.find? "UnusedTickets" with
      | some e => (e.findall "UnusedTicket").map parseUnusedTicket
      | none => []
    southwest_unused_tickets := match root.find? "SouthwestUnusedTickets" with
      | some e => (e.findall "UnusedTicket").map parseUnusedTicket
      | none => []
    loyalty_programs := match root.find? "AdvantageMemberships" with
      | some e => parseMemberships e
      | none => [] }

/-! ### Session manager and facade (`ConcurSDK`)

The HTTP transport and the OAuth token endpoint are the IO boundary; they
enter as explicit inputs: `transport` is the list of successive responses the
resource endpoint would return (an exhausted list models a
`requests.exceptions.RequestException`), and `toks` the successive outcomes
of calls to the token endpoint.  The error classes become `SdkError`; Python
exception propagation becomes `Except`.  `RequestOutcome.http_calls` counts
calls to the resource endpoint and `auth_calls` the calls to `_authenticate`.
-/

inductive SdkError where
  | concurProfileError (msg : String)
  | authenticationError (msg : String)
  | profileNotFoundError (msg : String)
  | validationError (msg : String)
deriving DecidableEq, Repr

/-- `str(e)`: the message carried by the exception. -/
def SdkError.msg : SdkError → String
  | .concurProfileError m => m
  | .authenticationError m => m
  | .profileNotFoundError m => m
  | .validationError m => m

structure Response where
  status : Nat
  text : String
deriving DecidableEq, Repr

/-- The fields of the token-endpoint JSON used by `_authenticate`
(mirrors the `AuthResponse` TypedDict declared in the source). -/
structure TokenBody where
  access_token : String
  expires_in : Int
  geolocation : String
deriving DecidableEq, Repr

/-- Outcome of one call to the token endpoint: `failure` is the
`requests.exceptions.RequestException` path (network failure or
`raise_for_status` on a non-2xx response). -/
inductive TokenResult where
  | failure (msg : String)
  | success (body : TokenBody)
deriving DecidableEq, Repr

/-- The token state held on the `ConcurSDK` instance
(`_access_token`, `_token_expiry`, `_geolocation`, `_identity_base_url`);
times are seconds (the code truncates `datetime.now()` to whole seconds). -/
structure AuthState where
  access_token : Option String := none
  token_expiry : Option Int := none
  geolocation : Option String := none
  identity_base_url : Option String := none
deriving DecidableEq, Repr

/-- `ConcurSDK._authenticate`: one call to the token endpoint whose outcome is
`resp`.  Returns the raised error (if any) together with the post-call state. -/
def ConcurSDK.authenticate (st : AuthState) (now : Int) (resp : TokenResult) :
    (Except SdkError Unit) × AuthState :=
  match resp with
  | .failure msg =>
    (.error (.authenticationError ("Authentication failed: " ++ msg)), st)
  | .success b =>
    (.ok (),
     { access_token := some b.access_token
       geolocation := some b.geolocation
       identity_base_url := some (b.geolocation ++ "/profile/identity/v4")
       token_expiry := some (now + (b.expires_in - 60)) })

/-- The condition of `_ensure_authenticated`:
`not self._access_token or (self._token_expiry and now >= self._token_expiry)`. -/
def needsAuth (st : AuthState) (now : Int) : Bool :=
  st.access_token.isNone ||
  (match st.token_expiry with
   | some e => decide (now ≥ e)
   | none => false)

instance {ε α : Type} [DecidableEq ε] [DecidableEq α] :
    DecidableEq (Except ε α) := fun
  | .ok a, .ok b =>
    if h : a = b then .isTrue (by rw [h])
    else .isFalse (by intro hc; cases hc; exact h rfl)
  | .error a, .error b =>
    if h : a = b then .isTrue (by rw [h])
    else .isFalse (by intro hc; cases hc; exact h rfl)
  | .ok _, .error _ => .isFalse (by intro hc; cases hc)
  | .error _, .ok _ => .isFalse (by intro hc; cases hc)

structure RequestOutcome where
  result : Except SdkError Response
  http_calls : Nat
  auth_calls : Nat
deriving DecidableEq, Repr

/-- One invocation of `_authenticate`, consuming the next token-endpoint
outcome. -/
def authStep (st : AuthState) (now : Int) (toks : List TokenResult) :
    ((Except SdkError Unit) × AuthState) × List TokenResult :=
  match toks with
  | [] => ((.error (.authenticationError "Authentication failed: no response"), st), [])
  | t :: rest => (ConcurSDK.authenticate st now t, rest)

/-- `ConcurSDK._make_travel_profile_request`: ensure a token, issue the
request, and on a 401 re-authenticate once and re-issue the same request
once, returning whatever the second attempt yields. -/
def ConcurSDK.make_travel_profile_request (st0 : AuthState) (now : Int)
    (toks0 : List TokenResult) (transport : List Response) : RequestOutcome :=
  let ensure : ((Except SdkError Unit) × AuthState) × List TokenResult × Nat :=
    if needsAuth st0 now then
      match authStep st0 now toks0 with
      | (r, rest) => (r, rest, 1)
    else ((.ok (), st0), toks0, 0)
  match ensure with
  | ((.error e, _), _, a) => ⟨.error e, 0, a⟩
  | ((.ok _, st1), toks1, a) =>
    match transport with
    | [] =>
      ⟨.error (.concurProfileError "Travel Profile API request failed: connection error"),
       0, a⟩
    | r1 :: rest1 =>
      if r1.status == 401 then
        match authStep st1 now toks1 with
        | ((.error e, _), _) => ⟨.error e, 1, a + 1⟩
        | ((.ok _, _), _) =>
          match rest1 with
          | [] =>
            ⟨.error (.concurProfileError "Travel Profile API request failed: connection error"),
             1, a + 1⟩
          | r2 :: _ => ⟨.ok r2, 2, a + 1⟩
      else ⟨.ok r1, 1, a⟩

/-- `ConcurSDK._make_identity_request`: identical retry-once logic, with the
additional guard that the identity base URL must be known. -/
def ConcurSDK.make_identity_request (st0 : AuthState) (now : Int)
    (toks0 : List TokenResult) (transport : List Response) : RequestOutcome :=
  let ensure : ((Except SdkError Unit) × AuthState) × List TokenResult × Nat :=
    if needsAuth st0 now then
      match authStep st0 now toks0 with
      | (r, rest) => (r, rest, 1)
    else ((.ok (), st0), toks0, 0)
  match ensure with
  | ((.error e, _), _, a) => ⟨.error e, 0, a⟩
  | ((.ok _, st1), toks1, a) =>
    if st1.identity_base_url.isNone then
      ⟨.error (.authenticationError
        "Identity base URL not available - authentication may have failed"), 0, a⟩
    else
      match transport with
      | [] =>
        ⟨.error (.concurProfileError "Identity API request failed: connection error"),
         0, a⟩
      | r1 :: rest1 =>
        if r1.status == 401 then
          match authStep st1 now toks1 with
          | ((.error e, _), _) => ⟨.error e, 1, a + 1⟩
          | ((.ok _, _), _) =>
            match rest1 with
            | [] =>
              ⟨.error (.concurProfileError "Identity API request failed: connection error"),
               1, a + 1⟩
            | r2 :: _ => ⟨.ok r2, 2, a + 1⟩
        else ⟨.ok r1, 1, a⟩

/-! Identity v4 user records (the fields of the Python dataclasses; the SCIM
JSON payload built by `to_create_dict` is not itself needed by the claims). -/

structure IdentityName where
  given_name : String := ""
  family_name : String := ""
  middle_name : String := ""
  formatted : String := ""
deriving DecidableEq, Repr

structure IdentityEnterpriseInfo where
  company_id : String := ""
  employee_number : String := ""
  start_date : Option PyDate := none
  department : String := ""
  cost_center : String := ""
deriving DecidableEq, Repr

structure IdentityEmail where
  value : String
  type : String := "work"
  primary : Bool := true
  verified : Bool := false
deriving DecidableEq, Repr

structure IdentityPhoneNumber where
  value : String
  type : String := "work"
  primary : Bool := true
deriving DecidableEq, Repr

structure IdentityUser where
  user_name : String
  display_name : String := ""
  active : Bool := true
  title : String := ""
  nick_name : String := ""
  preferred_language : String := "en-US"
  timezone : String := "America/New_York"
  name : Option IdentityName := none
  emails : List IdentityEmail := []
  phone_numbers : List IdentityPhoneNumber := []
  enterprise_info : Option IdentityEnterpriseInfo := none
  id : String := ""
  external_id : String := ""
deriving DecidableEq, Repr

/-- `ConcurSDK.create_user_identity`.  The whole body runs inside
`try: ... except Exception as e: raise ConcurProfileError(...)`, so every
inner exception — including the `ValidationError` raised for a missing
company id — surfaces as a plain `ConcurProfileError` whose message wraps the
inner one.  `company_id` is the SDK-level company id
(constructor argument or `CONCUR_COMPANY_UUID`).  The second component counts
HTTP calls to the identity endpoint. -/
def ConcurSDK.create_user_identity (company_id : Option String)
    (user : IdentityUser) (st : AuthState) (now : Int)
    (toks : List TokenResult) (transport : List Response) :
    (Except SdkError Unit) × Nat :=
  let enterprise0 := user.enterprise_info.getD {}
  let enterprise :=
    if enterprise0.company_id == "" && company_id.getD "" != "" then
      { enterprise0 with company_id := company_id.getD "" }
    else enterprise0
  if enterprise.company_id == "" then
    (.error (.concurProfileError
      ("Error creating user " ++ user.user_name ++ ": " ++
       "Company ID is required for user creation. Set the CONCUR_COMPANY_UUID environment variable or provide company_id parameter.")),
     0)
  else
    let out := ConcurSDK.make_identity_request st now toks transport
    match out.result with
    | .error e =>
      (.error (.concurProfileError
        ("Error creating user " ++ user.user_name ++ ": " ++ e.msg)),
       out.http_calls)
    | .ok r =>
      if r.status == 201 then (.ok (), out.http_calls)
      else
        (.error (.concurProfileError
          ("Error creating user " ++ user.user_name ++ ": " ++
           "Failed to create user " ++ user.user_name ++ ": HTTP " ++
           toString r.status ++
           (if r.text != "" then " - " ++ r.text else ""))),
         out.http_calls)

/-- `ConcurSDK.get_current_user_travel_profile` raises unconditionally,
before any HTTP request; the second component counts HTTP calls. -/
def ConcurSDK.get_current_user_travel_profile (_st : AuthState) :
    (Except SdkError TravelProfile) × Nat :=
  (.error (.authenticationError
    ("Cannot get current user travel profile with client credentials authentication. " ++
     "Client credentials provides company-level access without user context. " ++
     "Use get_travel_profile(login_id) instead with a specific user login ID.")),
   0)

/-! ### Generic counting helpers for element lists -/

theorem countP_optChild_zero (p : Xml → Bool) (cond : Bool) (x : Xml)
    (h : p x = false) : (optChild cond x).countP p = 0 := by
  unfold optChild
  split <;> simp [List.countP_cons, h]

theorem countP_optMap_zero {α : Type} (p : Xml → Bool) (o : Option α)
    (f : α → Xml) (h : ∀ a, p (f a) = false) : (optMap o f).countP p = 0 := by
  cases o <;> simp [optMap, List.countP_cons, h]

/-! ### Claim theorems -/

/-- C10: `get_current_user_travel_profile` raises `AuthenticationError` for
every session state, with zero HTTP requests made; an explicit login id (via
`get_travel_profile`) is the only way to read a travel profile. -/
theorem get_current_user_travel_profile_always_raises (st : AuthState) :
    (∃ m, ConcurSDK.get_current_user_travel_profile st =
      (.error (.authenticationError m), 0)) := ⟨_, rfl⟩

/-- C6: `_authenticate` on success stores the access token, the tenant
geolocation (and the identity base URL built from it) and an expiry of
`now + expires_in - 60` seconds; on failure it raises `AuthenticationError`
and leaves the state unchanged. -/
theorem authenticate_stores_on_success_only (st : AuthState) (now : Int)
    (b : TokenBody) (m : String) :
    ConcurSDK.authenticate st now (.success b) =
      (.ok (),
       { access_token := some b.access_token
         token_expiry := some (now + (b.expires_in - 60))
         geolocation := some b.geolocation
         identity_base_url := some (b.geolocation ++ "/profile/identity/v4") }) ∧
    ConcurSDK.authenticate st now (.failure m) =
      (.error (.authenticationError ("Authentication failed: " ++ m)), st) :=
  ⟨rfl, rfl⟩

/-- C8: the hotel-preference encoder never emits a smoking element
(`SmokingCode`) nor a prefer-restaurant element (either spelling), whatever
is set on the domain model, the denylisted `smoking_preference` and
`prefer_restaurant` fields included. -/
theorem hotel_encoder_never_emits_denylisted (h : HotelPreferences) :
    ((HotelPreferences.to_xml_element h).map (fun x =>
      x.children.countP (fun c =>
        c.tag == "SmokingCode" || c.tag == "PreferRestaraunt" ||
        c.tag == "PreferRestaurant"))).getD 0 = 0 := by
  unfold HotelPreferences.to_xml_element
  split
  · simp only [Option.map_some', Option.getD_some, Xml.children,
      HotelPreferences.xml_children, List.countP_append]
    rw [countP_optMap_zero _ _ _ (fun a => rfl)]
    rw [countP_optChild_zero _ _ _ rfl, countP_optChild_zero _ _ _ rfl,
      countP_optChild_zero _ _ _ rfl, countP_optChild_zero _ _ _ rfl,
      countP_optChild_zero _ _ _ rfl, countP_optChild_zero _ _ _ rfl,
      countP_optChild_zero _ _ _ rfl, countP_optChild_zero _ _ _ rfl]
    rfl
  · rfl

/-- C4, counterexample: with a valid token held, a transport answering 401 to
both the original request and the retry makes exactly two resource calls and
one re-authentication, and then returns the second 401 response to the caller
as an ordinary `Response` — no `AuthenticationError` is raised. -/
theorem second_401_returned_not_raised :
    ConcurSDK.make_travel_profile_request
      { access_token := some "tok", token_expiry := some 100 } 0
      [.success { access_token := "tok2", expires_in := 3600,
                  geolocation := "https://geo" }]
      [{ status := 401, text := "unauthorized" },
       { status := 401, text := "unauthorized again" }] =
    ⟨.ok { status := 401, text := "unauthorized again" }, 2, 1⟩ := rfl

/-- C4, amended: with a valid token, a non-401 first response is returned
after exactly one call and no re-authentication; a 401 first response leads to
exactly one re-authentication and exactly one retry, whose response is
returned as-is (even when it is again a 401); `AuthenticationError` surfaces
only when the re-authentication itself fails, after exactly one resource
call.  No status other than 401 triggers a retry. -/
theorem make_travel_profile_request_retry_once (st : AuthState) (now : Int)
    (toks : List TokenResult) (transport : List Response)
    (hAuth : needsAuth st now = false) :
    (∀ r1 rest, transport = r1 :: rest → r1.status ≠ 401 →
      ConcurSDK.make_travel_profile_request st now toks transport =
        ⟨.ok r1, 1, 0⟩) ∧
    (∀ r1 r2 rest b trest, transport = r1 :: r2 :: rest → r1.status = 401 →
      toks = .success b :: trest →
      ConcurSDK.make_travel_profile_request st now toks transport =
        ⟨.ok r2, 2, 1⟩) ∧
    (∀ r1 rest m trest, transport = r1 :: rest → r1.status = 401 →
      toks = .failure m :: trest →
      ConcurSDK.make_travel_profile_request st now toks transport =
        ⟨.error (.authenticationError ("Authentication failed: " ++ m)), 1, 1⟩) := by
  refine ⟨?_, ?_, ?_⟩
  · intro r1 rest htr h401
    subst htr
    have hb : (r1.status == 401) = false := by
      simpa using h401
    simp [ConcurSDK.make_travel_profile_request, hAuth, hb]
  · intro r1 r2 rest b trest htr h401 htk
    subst htr; subst htk
    have hb : (r1.status == 401) = true := by simpa using h401
    simp [ConcurSDK.make_travel_profile_request, hAuth, hb, authStep,
      ConcurSDK.authenticate]
  · intro r1 rest m trest htr h401 htk
    subst htr; subst htk
    have hb : (r1.status == 401) = true := by simpa using h401
    simp [ConcurSDK.make_travel_profile_request, hAuth, hb, authStep,
      ConcurSDK.authenticate]

/-- Witness for the retry theorem at concrete inputs. -/
theorem make_travel_profile_request_retry_once_witness :
    (ConcurSpec.ConcurSDK.make_travel_profile_request
      { access_token := some "tok", token_expiry := some 100 } 0
      [] [{ status := 200, text := "ok" }] =
        ⟨.ok { status := 200, text := "ok" }, 1, 0⟩) ∧
    (ConcurSpec.ConcurSDK.make_travel_profile_request
      { access_token := some "tok", token_expiry := some 100 } 0
      [.success { access_token := "t2", expires_in := 3600, geolocation := "g" }]
      [{ status := 401, text := "no" }, { status := 200, text := "ok" }] =
        ⟨.ok { status := 200, text := "ok" }, 2, 1⟩) ∧
    (ConcurSpec.ConcurSDK.make_travel_profile_request
      { access_token := some "tok", token_expiry := some 100 } 0
      [.failure "bad creds"] [{ status := 401, text := "no" }] =
        ⟨.error (.authenticationError "Authentication failed: bad creds"), 1, 1⟩) :=
  ⟨(make_travel_profile_request_retry_once
      { access_token := some "tok", token_expiry := some 100 } 0
      [] [{ status := 200, text := "ok" }] rfl).1
      { status := 200, text := "ok" } [] rfl (by decide),
   (make_travel_profile_request_retry_once
      { access_token := some "tok", token_expiry := some 100 } 0
      [.success { access_token := "t2", expires_in := 3600, geolocation := "g" }]
      [{ status := 401, text := "no" }, { status := 200, text := "ok" }] rfl).2.1
      { status := 401, text := "no" } { status := 200, text := "ok" } []
      { access_token := "t2", expires_in := 3600, geolocation := "g" } []
      rfl rfl rfl,
   (make_travel_profile_request_retry_once
      { access_token := some "tok", token_expiry := some 100 } 0
      [.failure "bad creds"] [{ status := 401, text := "no" }] rfl).2.2
      { status := 401, text := "no" } [] "bad creds" [] rfl rfl rfl⟩

/-- C5, counterexample: `create_user_identity` called for a user with a
username and a given name but no family name, with a company id available,
does not raise `ValidationError`: the create request is issued (one HTTP
call) and succeeds. -/
theorem create_without_family_name_hits_network :
    ConcurSDK.create_user_identity (some "company-uuid")
      { user_name := "jdoe", name := some { given_name := "John" } }
      { access_token := some "tok", token_expiry := some 100,
        identity_base_url := some "https://geo/profile/identity/v4" } 0
      [] [{ status := 201, text := "" }] = (.ok (), 1) := rfl

/-- C5, amended: the only local validation in `create_user_identity` is the
resolvable company id: when neither the user record nor the SDK configuration
provides one, the call aborts with zero HTTP calls, but the inner
`ValidationError` is wrapped by the blanket exception handler and surfaces as
a plain `ConcurProfileError`; when a company id resolves, the request is
always issued — username, given name and family name are not validated
locally. -/
theorem create_user_identity_validates_only_company (cid : Option String)
    (user : IdentityUser) (st : AuthState) (now : Int)
    (toks : List TokenResult) (transport : List Response) :
    ((user.enterprise_info.getD {}).company_id = "" → cid.getD "" = "" →
      ∃ m, ConcurSDK.create_user_identity cid user st now toks transport =
        (.error (.concurProfileError m), 0)) ∧
    ((user.enterprise_info.getD {}).company_id ≠ "" ∨ cid.getD "" ≠ "" →
      (ConcurSDK.create_user_identity cid user st now toks transport).2 =
        (ConcurSDK.make_identity_request st now toks transport).http_calls) := by
  constructor
  · intro h1 h2
    have hb0 : ((user.enterprise_info.getD {}).company_id == "") = true := by
      simpa using h1
    have hb2 : ((cid.getD "") != "") = false := by simpa using h2
    refine ⟨"Error creating user " ++ user.user_name ++ ": " ++
      "Company ID is required for user creation. Set the CONCUR_COMPANY_UUID environment variable or provide company_id parameter.", ?_⟩
    simp [ConcurSDK.create_user_identity, hb0, hb2]
  · intro h
    cases hc0 : ((user.enterprise_info.getD {}).company_id == "") with
    | false =>
      simp only [ConcurSDK.create_user_identity, hc0, Bool.false_and,
        Bool.false_eq_true, if_false]
      cases hres : (ConcurSDK.make_identity_request st now toks transport).result
      · simp [hres]
      · simp only [hres]
        split <;> rfl
    | true =>
      have hc0' : (user.enterprise_info.getD {}).company_id = "" := by
        simpa using hc0
      have hcid : ((cid.getD "") != "") = true := by
        rcases h with h | h
        · exact absurd hc0' h
        · simpa using h
      have hcc : ((cid.getD "") == "") = false := by
        rcases h with h | h
        · exact absurd hc0' h
        · simpa using h
      simp only [ConcurSDK.create_user_identity, hc0, hcid, Bool.true_and,
        if_true, hcc, Bool.false_eq_true, if_false]
      cases hres : (ConcurSDK.make_identity_request st now toks transport).result
      · simp [hres]
      · simp only [hres]
        split <;> rfl

/-- Witness for the company-id-only validation theorem at concrete inputs. -/
theorem create_user_identity_validates_only_company_witness :
    (∃ m, ConcurSpec.ConcurSDK.create_user_identity none
      { user_name := "jdoe" }
      { access_token := some "tok", token_expiry := some 100,
        identity_base_url := some "https://geo/profile/identity/v4" } 0 [] [] =
      (.error (.concurProfileError m), 0)) ∧
    (ConcurSpec.ConcurSDK.create_user_identity (some "company-uuid")
      { user_name := "jdoe" }
      { access_token := some "tok", token_expiry := some 100,
        identity_base_url := some "https://geo/profile/identity/v4" } 0 []
      [{ status := 400, text := "bad request" }]).2 = 1 :=
  ⟨(create_user_identity_validates_only_company none _ _ 0 [] []).1 rfl rfl,
   (create_user_identity_validates_only_company (some "company-uuid") _ _ 0 []
      [{ status := 400, text := "bad request" }]).2 (Or.inr (by decide))⟩

/-! ### Membership and tag helpers for the section chunks -/

theorem mem_optChild {c : Bool} {x y : Xml} (h : y ∈ optChild c x) : y = x := by
  unfold optChild at h
  split at h <;> simp_all

theorem mem_optMap {α : Type} {o : Option α} {f : α → Xml} {y : Xml}
    (h : y ∈ optMap o f) : ∃ a, o = some a ∧ y = f a := by
  cases o <;> simp_all [optMap]

theorem mem_ifChunk {c : Bool} {l : List Xml} {y : Xml}
    (h : y ∈ if c then l else []) : y ∈ l := by
  split at h <;> simp_all

theorem tags_optChild (c : Bool) (x : Xml) :
    ((optChild c x).map Xml.tag).Sublist [x.tag] := by
  unfold optChild
  split <;> simp

theorem tags_optMap {α : Type} (o : Option α) (f : α → Xml) (t : String)
    (h : ∀ a, (f a).tag = t) : ((optMap o f).map Xml.tag).Sublist [t] := by
  cases o <;> simp [optMap, h]

theorem tags_ifChunk {c : Bool} {l : List Xml} {t : String}
    (h : (l.map Xml.tag).Sublist [t]) :
    (((if c then l else []).map Xml.tag)).Sublist [t] := by
  split <;> simp [h]

theorem tags_sectionGeneral (p : TravelProfile) (f : List String) :
    ((sectionGeneral p f).map Xml.tag).Sublist ["General"] := by
  unfold sectionGeneral
  exact tags_optChild _ _

theorem tags_sectionNationalIDs (p : TravelProfile) (f : List String) :
    ((sectionNationalIDs p f).map Xml.tag).Sublist ["NationalIDs"] := by
  unfold sectionNationalIDs
  exact tags_optChild _ _

theorem tags_sectionDriversLicenses (p : TravelProfile) (f : List String) :
    ((sectionDriversLicenses p f).map Xml.tag).Sublist ["DriversLicenses"] := by
  unfold sectionDriversLicenses
  exact tags_optChild _ _

theorem tags_sectionHasNoPassport (p : TravelProfile) (f : List String) :
    ((sectionHasNoPassport p f).map Xml.tag).Sublist ["HasNoPassport"] := by
  unfold sectionHasNoPassport
  exact tags_optChild _ _

theorem tags_sectionPassports (p : TravelProfile) (f : List String) :
    ((sectionPassports p f).map Xml.tag).Sublist ["Passports"] := by
  unfold sectionPassports
  exact tags_optChild _ _

theorem tags_sectionVisas (p : TravelProfile) (f : List String) :
    ((sectionVisas p f).map Xml.tag).Sublist ["Visas"] := by
  unfold sectionVisas
  exact tags_optChild _ _

theorem tags_sectionRatePreferences (p : TravelProfile) (f : List String) :
    ((sectionRatePreferences p f).map Xml.tag).Sublist ["RatePreferences"] := by
  unfold sectionRatePreferences
  exact tags_ifChunk (tags_optMap _ _ _ (fun _ => rfl))

theorem tags_sectionDiscountCodes (p : TravelProfile) (f : List String) :
    ((sectionDiscountCodes p f).map Xml.tag).Sublist ["DiscountCodes"] := by
  unfold sectionDiscountCodes
  exact tags_optChild _ _

theorem tags_sectionAir (p : TravelProfile) (f : List String) :
    ((sectionAir p f).map Xml.tag).Sublist ["Air"] := by
  unfold sectionAir
  exact tags_ifChunk (tags_optMap _ _ _ (fun _ => rfl))

theorem tags_sectionRail (p : TravelProfile) (f : List String) :
    ((sectionRail p f).map Xml.tag).Sublist ["Rail"] := by
  unfold sectionRail
  exact tags_ifChunk (tags_optMap _ _ _ (fun _ => rfl))

theorem tags_sectionCar (p : TravelProfile) (f : List String) :
    ((sectionCar p f).map Xml.tag).Sublist ["Car"] := by
  unfold sectionCar
  refine tags_ifChunk ?_
  cases p.car_preferences with
  | none => simp
  | some c =>
    show (((CarPreferences.to_xml_element c).toList).map Xml.tag).Sublist ["Car"]
    unfold CarPreferences.to_xml_element
    split
    · simp [Xml.tag]
    · simp

theorem tags_sectionHotel (p : TravelProfile) (f : List String) :
    ((sectionHotel p f).map Xml.tag).Sublist ["Hotel"] := by
  unfold sectionHotel
  refine tags_ifChunk ?_
  cases p.hotel_preferences with
  | none => simp
  | some h =>
    show (((HotelPreferences.to_xml_element h).toList).map Xml.tag).Sublist
      ["Hotel"]
    unfold HotelPreferences.to_xml_element
    split
    · simp [Xml.tag]
    · simp

theorem tags_sectionCustomFields (p : TravelProfile) (f : List String) :
    ((sectionCustomFields p f).map Xml.tag).Sublist ["CustomFields"] := by
  unfold sectionCustomFields
  exact tags_optChild _ _

theorem tags_sectionTSAInfo (p : TravelProfile) (f : List String) :
    ((sectionTSAInfo p f).map Xml.tag).Sublist ["TSAInfo"] := by
  unfold sectionTSAInfo
  exact tags_ifChunk (tags_optMap _ _ _ (fun _ => rfl))

theorem tags_sectionUnusedTickets (p : TravelProfile) (f : List String) :
    ((sectionUnusedTickets p f).map Xml.tag).Sublist ["UnusedTickets"] := by
  unfold sectionUnusedTickets
  exact tags_optChild _ _

theorem tags_sectionSouthwestUnusedTickets (p : TravelProfile) (f : List String) :
    ((sectionSouthwestUnusedTickets p f).map Xml.tag).Sublist
      ["SouthwestUnusedTickets"] := by
  unfold sectionSouthwestUnusedTickets
  exact tags_optChild _ _

theorem tags_sectionAdvantageMemberships (p : TravelProfile) (f : List String) :
    ((sectionAdvantageMemberships p f).map Xml.tag).Sublist
      ["AdvantageMemberships"] := by
  unfold sectionAdvantageMemberships
  exact tags_optChild _ _

/-- C1: for every profile and every selection of field groups (an explicit
list, or `none` for the default non-empty-field selection), the tags of the
direct children of the encoded update document form a sublist of the fixed
travel-profile schema order — i.e. the emitted groups always appear in schema
order, whatever subset is emitted.  (Field-set order cannot influence the
output: the encoder reads the entity record, not an assignment history.) -/
theorem encoded_children_in_schema_order (p : TravelProfile)
    (fieldsOpt : Option (List String)) :
    (((p.to_update_xml fieldsOpt).children.map Xml.tag)).Sublist
      ["General", "EmergencyContact", "Telephones", "Addresses", "NationalIDs",
       "DriversLicenses", "HasNoPassport", "Passports", "Visas",
       "EmailAddresses", "RatePreferences", "DiscountCodes", "Air", "Rail",
       "Car", "Hotel", "CustomFields", "TSAInfo", "UnusedTickets",
       "SouthwestUnusedTickets", "AdvantageMemberships"] := by
  have key : ∀ fields : List String,
      (((p.add_sections_to_xml fields).map Xml.tag)).Sublist
        (["General"] ++ (["NationalIDs"] ++ (["DriversLicenses"] ++
         (["HasNoPassport"] ++ (["Passports"] ++ (["Visas"] ++
         (["RatePreferences"] ++ (["DiscountCodes"] ++ (["Air"] ++
         (["Rail"] ++ (["Car"] ++ (["Hotel"] ++ (["CustomFields"] ++
         (["TSAInfo"] ++ (["UnusedTickets"] ++ (["SouthwestUnusedTickets"] ++
         ["AdvantageMemberships"])))))))))))))))) := by
    intro fields
    unfold TravelProfile.add_sections_to_xml
    simp only [List.map_append, List.append_assoc]
    refine (tags_sectionGeneral p fields).append ?_
    refine (tags_sectionNationalIDs p fields).append ?_
    refine (tags_sectionDriversLicenses p fields).append ?_
    refine (tags_sectionHasNoPassport p fields).append ?_
    refine (tags_sectionPassports p fields).append ?_
    refine (tags_sectionVisas p fields).append ?_
    refine (tags_sectionRatePreferences p fields).append ?_
    refine (tags_sectionDiscountCodes p fields).append ?_
    refine (tags_sectionAir p fields).append ?_
    refine (tags_sectionRail p fields).append ?_
    refine (tags_sectionCar p fields).append ?_
    refine (tags_sectionHotel p fields).append ?_
    refine (tags_sectionCustomFields p fields).append ?_
    refine (tags_sectionTSAInfo p fields).append ?_
    refine (tags_sectionUnusedTickets p fields).append ?_
    exact (tags_sectionSouthwestUnusedTickets p fields).append
      (tags_sectionAdvantageMemberships p fields)
  exact (key _).trans (by decide)

theorem tag_of_mem_of_tags_sublist {l : List Xml} {t : String}
    (hs : (l.map Xml.tag).Sublist [t]) {x : Xml} (hx : x ∈ l) : x.tag = t := by
  have h1 : x.tag ∈ l.map Xml.tag := List.mem_map_of_mem _ hx
  have := hs.subset h1
  simpa using this

theorem countP_eq_zero_of_tags {l : List Xml} {t T : String}
    (hs : (l.map Xml.tag).Sublist [t]) (hne : t ≠ T) :
    l.countP (fun c => c.tag == T) = 0 := by
  rw [List.countP_eq_zero]
  intro a ha
  have h1 := tag_of_mem_of_tags_sublist hs ha
  simp [h1, hne]

theorem find?_eq_none_of_tags {l : List Xml} {t T : String}
    (hs : (l.map Xml.tag).Sublist [t]) (hne : t ≠ T) :
    l.find? (fun c => c.tag == T) = none := by
  rw [List.find?_eq_none]
  intro x hx
  have h1 := tag_of_mem_of_tags_sublist hs hx
  simp [h1, hne]

/-- C2, counterexample: a travel profile whose Air (resp. Rail) block exists
with every field at its default value is encoded, with that field group
selected, to a document containing an empty `Air` (resp. `Rail`) container
element — the all-default block is serialized, not omitted. -/
theorem all_default_air_rail_blocks_are_serialized :
    (({ login_id := "u", air_preferences := some {} } :
        TravelProfile).to_update_xml (some ["air_preferences"])).children =
      [Xml.elem "Air" [] none []] ∧
    (({ login_id := "u", rail_preferences := some {} } :
        TravelProfile).to_update_xml (some ["rail_preferences"])).children =
      [Xml.elem "Rail" [] none []] := ⟨rfl, rfl⟩

/-- C2, amended: an all-default Hotel or Car block is never serialized (no
`Hotel`/`Car` element appears, for any field-group selection), but an
all-default Air or Rail block is serialized as an empty `Air`/`Rail`
container element whenever its group is selected. -/
theorem all_default_block_omission (p : TravelProfile) (fields : List String) :
    (p.hotel_preferences = some {} →
      ((p.to_update_xml (some fields)).children.countP
        (fun c => c.tag == "Hotel")) = 0) ∧
    (p.car_preferences = some {} →
      ((p.to_update_xml (some fields)).children.countP
        (fun c => c.tag == "Car")) = 0) ∧
    (p.air_preferences = some {} → fieldSel fields "air_preferences" = true →
      Xml.elem "Air" [] none [] ∈ (p.to_update_xml (some fields)).children) ∧
    (p.rail_preferences = some {} → fieldSel fields "rail_preferences" = true →
      Xml.elem "Rail" [] none [] ∈ (p.to_update_xml (some fields)).children) := by
  have hch : (p.to_update_xml (some fields)).children =
      p.add_sections_to_xml fields := rfl
  refine ⟨?_, ?_, ?_, ?_⟩
  · intro hH
    rw [hch]
    have hsec : sectionHotel p fields = [] := by
      unfold sectionHotel
      rw [hH]
      split <;> rfl
    unfold TravelProfile.add_sections_to_xml
    simp only [List.countP_append, hsec, List.countP_nil]
    rw [countP_eq_zero_of_tags (tags_sectionGeneral p fields) (by decide),
      countP_eq_zero_of_tags (tags_sectionNationalIDs p fields) (by decide),
      countP_eq_zero_of_tags (tags_sectionDriversLicenses p fields) (by decide),
      countP_eq_zero_of_tags (tags_sectionHasNoPassport p fields) (by decide),
      countP_eq_zero_of_tags (tags_sectionPassports p fields) (by decide),
      countP_eq_zero_of_tags (tags_sectionVisas p fields) (by decide),
      countP_eq_zero_of_tags (tags_sectionRatePreferences p fields) (by decide),
      countP_eq_zero_of_tags (tags_sectionDiscountCodes p fields) (by decide),
      countP_eq_zero_of_tags (tags_sectionAir p fields) (by decide),
      countP_eq_zero_of_tags (tags_sectionRail p fields) (by decide),
      countP_eq_zero_of_tags (tags_sectionCar p fields) (by decide),
      countP_eq_zero_of_tags (tags_sectionCustomFields p fields) (by decide),
      countP_eq_zero_of_tags (tags_sectionTSAInfo p fields) (by decide),
      countP_eq_zero_of_tags (tags_sectionUnusedTickets p fields) (by decide),
      countP_eq_zero_of_tags (tags_sectionSouthwestUnusedTickets p fields)
        (by decide),
      countP_eq_zero_of_tags (tags_sectionAdvantageMemberships p fields)
        (by decide)]
  · intro hC
    rw [hch]
    have hsec : sectionCar p fields = [] := by
      unfold sectionCar
      rw [hC]
      split <;> rfl
    unfold TravelProfile.add_sections_to_xml
    simp only [List.countP_append, hsec, List.countP_nil]
    rw [countP_eq_zero_of_tags (tags_sectionGeneral p fields) (by decide),
      countP_eq_zero_of_tags (tags_sectionNationalIDs p fields) (by decide),
      countP_eq_zero_of_tags (tags_sectionDriversLicenses p fields) (by decide),
      countP_eq_zero_of_tags (tags_sectionHasNoPassport p fields) (by decide),
      countP_eq_zero_of_tags (tags_sectionPassports p fields) (by decide),
      countP_eq_zero_of_tags (tags_sectionVisas p fields) (by decide),
      countP_eq_zero_of_tags (tags_sectionRatePreferences p fields) (by decide),
      countP_eq_zero_of_tags (tags_sectionDiscountCodes p fields) (by decide),
      countP_eq_zero_of_tags (tags_sectionAir p fields) (by decide),
      countP_eq_zero_of_tags (tags_sectionRail p fields) (by decide),
      countP_eq_zero_of_tags (tags_sectionHotel p fields) (by decide),
      countP_eq_zero_of_tags (tags_sectionCustomFields p fields) (by decide),
      countP_eq_zero_of_tags (tags_sectionTSAInfo p fields) (by decide),
      countP_eq_zero_of_tags (tags_sectionUnusedTickets p fields) (by decide),
      countP_eq_zero_of_tags (tags_sectionSouthwestUnusedTickets p fields)
        (by decide),
      countP_eq_zero_of_tags (tags_sectionAdvantageMemberships p fields)
        (by decide)]
  · intro hA hSel
    rw [hch]
    have hsec : sectionAir p fields = [Xml.elem "Air" [] none []] := by
      unfold sectionAir
      rw [hA, hSel]
      rfl
    unfold TravelProfile.add_sections_to_xml
    simp [List.mem_append, hsec]
  · intro hR hSel
    rw [hch]
    have hsec : sectionRail p fields = [Xml.elem "Rail" [] none []] := by
      unfold sectionRail
      rw [hR, hSel]
      rfl
    unfold TravelProfile.add_sections_to_xml
    simp [List.mem_append, hsec]

/-- Witness for the amended omission theorem at a concrete profile. -/
theorem all_default_block_omission_witness :
    ((({ login_id := "u", air_preferences := some {},
         rail_preferences := some {}, hotel_preferences := some {},
         car_preferences := some {} } : TravelProfile).to_update_xml
        (some ["air_preferences", "rail_preferences", "hotel_preferences",
               "car_preferences"])).children.countP
      (fun c => c.tag == "Hotel")) = 0 ∧
    ((({ login_id := "u", air_preferences := some {},
         rail_preferences := some {}, hotel_preferences := some {},
         car_preferences := some {} } : TravelProfile).to_update_xml
        (some ["air_preferences", "rail_preferences", "hotel_preferences",
               "car_preferences"])).children.countP
      (fun c => c.tag == "Car")) = 0 ∧
    Xml.elem "Air" [] none [] ∈
      (({ login_id := "u", air_preferences := some {},
          rail_preferences := some {}, hotel_preferences := some {},
          car_preferences := some {} } : TravelProfile).to_update_xml
        (some ["air_preferences", "rail_preferences", "hotel_preferences",
               "car_preferences"])).children ∧
    Xml.elem "Rail" [] none [] ∈
      (({ login_id := "u", air_preferences := some {},
          rail_preferences := some {}, hotel_preferences := some {},
          car_preferences := some {} } : TravelProfile).to_update_xml
        (some ["air_preferences", "rail_preferences", "hotel_preferences",
               "car_preferences"])).children :=
  ⟨(all_default_block_omission _ _).1 rfl,
   (all_default_block_omission _ _).2.1 rfl,
   (all_default_block_omission _ _).2.2.1 rfl rfl,
   (all_default_block_omission _ _).2.2.2 rfl rfl⟩

/-- C7, counterexample: two air-preference blocks with at least one field set
but no `Seat` element emitted.  The `concur_profile_sdk_improved.py` encoder
omits `Seat` when only the home airport is set; the primary encoder omits it
(and emits an empty `Air` container) when only the memberships list is set,
since memberships are never serialized into the Air block. -/
theorem air_block_without_seat_container :
    (ImprovedAir.to_xml_element { home_airport := "SEA" }).children.map Xml.tag =
      ["HomeAirport"] ∧
    AirPreferences.to_xml_element
      { memberships := [{ program_type := .air, vendor_code := "AA",
                          account_number := "123" }] } =
      Xml.elem "Air" [] none [] := ⟨rfl, rfl⟩

/-- C7, amended: in the primary SDK, whenever any of the five serialized
air-preference fields (seat position, seat section, meal, home airport,
other) is set, the `Air` element contains a nested `Seat` element — also when
only seat-unrelated fields are populated; a memberships-only block (improved
SDK: a block without seat fields) does not get one.  Concrete scenario A
holds: seat position Window plus home airport SEA under group
`air_preferences` encodes to exactly one `Air` element holding the `Seat`
container with the Window code and a `HomeAirport` element with text SEA,
with no `Hotel` or `Car` element. -/
theorem air_seat_container_rule (a : AirPreferences) :
    ((a.seat_preference.isSome = true ∨ a.seat_section.isSome = true ∨
      a.home_airport ≠ "" ∨ a.air_other ≠ "" ∨ a.meal_preference.isSome = true) →
      ((AirPreferences.to_xml_element a).find? "Seat").isSome = true) ∧
    (({ login_id := "u",
        air_preferences := some { seat_preference := some .window,
                                  home_airport := "SEA" } } :
        TravelProfile).to_update_xml (some ["air_preferences"])).children =
      [Xml.elem "Air" [] none
        [Xml.elem "Seat" [] none
          [Xml.elem "InterRowPositionCode" [] (some "Window") []],
         Xml.elem "HomeAirport" [] (some "SEA") []]] := by
  constructor
  · intro h
    have hb : (a.seat_preference.isSome || a.seat_section.isSome ||
        (a.home_airport != "" || a.air_other != "" ||
         a.meal_preference.isSome)) = true := by
      rcases h with h | h | h | h | h <;> simp [h]
    unfold AirPreferences.to_xml_element Xml.find?
    simp only [optChild, hb, if_true]
    simp [List.find?, Xml.tag]
  · rfl

/-- Witness for the Seat-container rule at a concrete input. -/
theorem air_seat_container_rule_witness :
    (({ home_airport := "SEA" } : AirPreferences).seat_preference.isSome = true ∨
     ({ home_airport := "SEA" } : AirPreferences).seat_section.isSome = true ∨
     ({ home_airport := "SEA" } : AirPreferences).home_airport ≠ "" ∨
     ({ home_airport := "SEA" } : AirPreferences).air_other ≠ "" ∨
     ({ home_airport := "SEA" } : AirPreferences).meal_preference.isSome = true) ∧
    ((AirPreferences.to_xml_element
      { home_airport := "SEA" }).find? "Seat").isSome = true :=
  ⟨by decide,
   (air_seat_container_rule { home_airport := "SEA" }).1 (by decide)⟩

/-- C9, counterexample: the loyalty-program family is an enum-valued field
whose unknown wire value does not leave the field unset: a membership entry
with the out-of-vocabulary `VendorType` text `Plane` is decoded to a loyalty
program whose family is silently set to `Air`. -/
theorem unknown_vendor_type_defaults_to_air :
    LoyaltyProgramType.ofVal "Plane" = none ∧
    (ConcurSDK.parse_travel_profile_xml
      (Xml.elem "ProfileResponse" [] none
        [Xml.elem "AdvantageMemberships" [] none
          [Xml.elem "Membership" [] none
            [Xml.elem "VendorCode" [] (some "XX") [],
             Xml.elem "VendorType" [] (some "Plane") [],
             Xml.elem "ProgramNumber" [] (some "123") []]]]) "u").loyalty_programs =
      [{ program_type := .air, vendor_code := "XX",
         account_number := "123" }] := ⟨rfl, rfl⟩

/-- C9, amended: for each optional enum-valued preference field (seat
position, seat section, meal, hotel room type, car type, transmission, car
smoking code), decoding a document whose text for that field is not in the
vocabulary leaves the field unset, and the decoder is a total function (it
never raises); the two non-optional enum fields fall back to sentinel values
instead: visa type to `Unknown` (and the loyalty family to `Air`, see the
counterexample).  Concrete scenario B holds: a document whose
`Air/Seat/InterRowPositionCode` is `Reclining` decodes to an air block with
every field unset. -/
theorem decoder_enum_tolerance :
    (∀ (e se : Xml) (s : String),
      e.find? "Seat" = some se → se.findtextD "InterRowPositionCode" "" = s →
      s ≠ "" → SeatPreference.ofVal s = none →
      (parseAirPreferences e).seat_preference = none) ∧
    (∀ (e se : Xml) (s : String),
      e.find? "Seat" = some se → se.findtextD "SectionPositionCode" "" = s →
      SeatSection.ofVal s = none →
      (parseAirPreferences e).seat_section = none) ∧
    (∀ (e : Xml) (s : String), e.findtextD "MealCode" "" = s →
      MealType.ofVal s = none → (parseAirPreferences e).meal_preference = none) ∧
    (∀ (e : Xml) (s : String), e.findtextD "RoomType" "" = s →
      HotelRoomType.ofVal s = none → (parseHotelPreferences e).room_type = none) ∧
    (∀ (e : Xml) (s : String), e.findtextD "CarType" "" = s →
      CarType.ofVal s = none → (parseCarPreferences e).car_type = none) ∧
    (∀ (e : Xml) (s : String), e.findtextD "CarTransmission" "" = s →
      TransmissionType.ofVal s = none →
      (parseCarPreferences e).transmission = none) ∧
    (∀ (e : Xml) (s : String), e.findtextD "CarSmokingCode" "" = s →
      SmokingPreference.ofVal s = none →
      (parseCarPreferences e).smoking_preference = none) ∧
    (∀ (e : Xml) (s : String), e.findtextD "VisaType" "Unknown" = s →
      VisaType.ofVal s = none → (parseVisa e).visa_type = .unknown) ∧
    (ConcurSDK.parse_travel_profile_xml
      (Xml.elem "ProfileResponse" [] none
        [Xml.elem "Air" [] none
          [Xml.elem "Seat" [] none
            [Xml.elem "InterRowPositionCode" [] (some "Reclining") []]]])
      "u").air_preferences = some ({} : AirPreferences) := by
  refine ⟨?_, ?_, ?_, ?_, ?_, ?_, ?_, ?_, rfl⟩
  · intro e se s hfind htext _hne hof
    simp only [parseAirPreferences, hfind, htext]
    split <;> simp [hof]
  · intro e se s hfind htext hof
    simp only [parseAirPreferences, hfind, htext]
    split <;> simp [hof]
  · intro e s htext hof
    simp only [parseAirPreferences, htext]
    split <;> simp [hof]
  · intro e s htext hof
    simp only [parseHotelPreferences, htext]
    split <;> simp [hof]
  · intro e s htext hof
    simp only [parseCarPreferences, htext]
    split <;> simp [hof]
  · intro e s htext hof
    simp only [parseCarPreferences, htext]
    split <;> simp [hof]
  · intro e s htext hof
    simp only [parseCarPreferences, htext]
    split <;> simp [hof]
  · intro e s htext hof
    simp only [parseVisa, htext, hof]
    rfl

/-- Witness for the enum-tolerance theorem at concrete documents. -/
theorem decoder_enum_tolerance_witness :
    (parseAirPreferences
      (Xml.elem "Air" [] none
        [Xml.elem "Seat" [] none
          [Xml.elem "InterRowPositionCode" [] (some "Reclining") [],
           Xml.elem "SectionPositionCode" [] (some "Center") []],
         Xml.elem "MealCode" [] (some "MEAT") []])).seat_preference = none ∧
    (parseAirPreferences
      (Xml.elem "Air" [] none
        [Xml.elem "Seat" [] none
          [Xml.elem "InterRowPositionCode" [] (some "Reclining") [],
           Xml.elem "SectionPositionCode" [] (some "Center") []],
         Xml.elem "MealCode" [] (some "MEAT") []])).seat_section = none ∧
    (parseAirPreferences
      (Xml.elem "Air" [] none
        [Xml.elem "Seat" [] none
          [Xml.elem "InterRowPositionCode" [] (some "Reclining") [],
           Xml.elem "SectionPositionCode" [] (some "Center") []],
         Xml.elem "MealCode" [] (some "MEAT") []])).meal_preference = none ∧
    (parseHotelPreferences
      (Xml.elem "Hotel" [] none
        [Xml.elem "RoomType" [] (some "Suite") []])).room_type = none ∧
    (parseCarPreferences
      (Xml.elem "Car" [] none
        [Xml.elem "CarType" [] (some "Tank") [],
         Xml.elem "CarTransmission" [] (some "CVT") [],
         Xml.elem "CarSmokingCode" [] (some "Vape") []])).car_type = none ∧
    (parseCarPreferences
      (Xml.elem "Car" [] none
        [Xml.elem "CarType" [] (some "Tank") [],
         Xml.elem "CarTransmission" [] (some "CVT") [],
         Xml.elem "CarSmokingCode" [] (some "Vape") []])).transmission = none ∧
    (parseCarPreferences
      (Xml.elem "Car" [] none
        [Xml.elem "CarType" [] (some "Tank") [],
         Xml.elem "CarTransmission" [] (some "CVT") [],
         Xml.elem "CarSmokingCode" [] (some "Vape") []])).smoking_preference =
      none ∧
    (parseVisa
      (Xml.elem "Visa" [] none
        [Xml.elem "VisaType" [] (some "XX") []])).visa_type = .unknown :=
  ⟨decoder_enum_tolerance.1 _ _ "Reclining" rfl rfl (by decide) rfl,
   decoder_enum_tolerance.2.1 _ _ "Center" rfl rfl rfl,
   decoder_enum_tolerance.2.2.1 _ "MEAT" rfl rfl,
   decoder_enum_tolerance.2.2.2.1 _ "Suite" rfl rfl,
   decoder_enum_tolerance.2.2.2.2.1 _ "Tank" rfl rfl,
   decoder_enum_tolerance.2.2.2.2.2.1 _ "CVT" rfl rfl,
   decoder_enum_tolerance.2.2.2.2.2.2.1 _ "Vape" rfl rfl,
   decoder_enum_tolerance.2.2.2.2.2.2.2.1 _ "XX" rfl rfl⟩

/-! ### Round-trip apparatus for C3

`allFieldGroups` is the complete list of field-group names accepted by
`_add_sections_to_xml`.  `stripProfile` erases exactly the fields that are not
supported in both codec directions (`Passport.primary` is never serialized,
memberships inside the four preference blocks are denylisted, hotel
`smoking_preference`/`prefer_restaurant` are denylisted, `CustomField.
field_type` is never serialized, the loyalty status/points texts are not part
of the `Membership` wire shape, and discount codes are a server-populated
field the spec explicitly excludes).  `TravelProfile.wf` is the well-formed
domain on which the round-trip holds. -/

def allFieldGroups : List String :=
  ["rule_class", "travel_config_id", "national_ids", "drivers_licenses",
   "has_no_passport", "passports", "visas", "tsa_info", "rate_preferences",
   "discount_codes", "air_preferences", "hotel_preferences",
   "car_preferences", "rail_preferences", "custom_fields", "unused_tickets",
   "southwest_unused_tickets", "loyalty_programs"]

def stripPassport (x : Passport) : Passport := { x with primary := false }

def stripAir (x : AirPreferences) : AirPreferences := { x with memberships := [] }

def stripHotel (x : HotelPreferences) : HotelPreferences :=
  { x with smoking_preference := none, prefer_restaurant := false,
           memberships := [] }

def stripCar (x : CarPreferences) : CarPreferences := { x with memberships := [] }

def stripRail (x : RailPreferences) : RailPreferences :=
  { x with memberships := [] }

def stripCustomField (x : CustomField) : CustomField :=
  { x with field_type := "Text" }

def stripLoyalty (x : LoyaltyProgram) : LoyaltyProgram :=
  { x with status := "", status_benefits := "", point_total := "",
           segment_total := "", next_status := "",
           points_until_next_status := "", segments_until_next_status := "" }

def stripProfile (p : TravelProfile) : TravelProfile :=
  { p with
    passports := p.passports.map stripPassport
    discount_codes := []
    air_preferences := p.air_preferences.map stripAir
    hotel_preferences := p.hotel_preferences.map stripHotel
    car_preferences := p.car_preferences.map stripCar
    rail_preferences := p.rail_preferences.map stripRail
    custom_fields := p.custom_fields.map stripCustomField
    loyalty_programs := p.loyalty_programs.map stripLoyalty }

def optDateValid : Option PyDate → Prop
  | none => True
  | some d => d.valid

instance : (o : Option PyDate) → Decidable (optDateValid o)
  | none => .isTrue trivial
  | some d => (inferInstance : Decidable d.valid)

/-- The gender strings that `TSAInfo.to_xml_element` passes through
unchanged (everything else is rewritten to `Male`, `Female` or `Unknown`). -/
def genderCanonical (g : String) : Prop :=
  g = "" ∨ g = "Male" ∨ g = "Female" ∨ g = "Undisclosed" ∨ g = "Unknown" ∨
  g = "Unspecified"

instance (g : String) : Decidable (genderCanonical g) := by
  unfold genderCanonical
  infer_instance

/-- A predicate holding vacuously on an absent optional value. -/
def optPred {α : Type} (P : α → Prop) : Option α → Prop
  | none => True
  | some a => P a

instance {α : Type} (P : α → Prop) [h : DecidablePred P] :
    (o : Option α) → Decidable (optPred P o)
  | none => .isTrue trivial
  | some a => h a

def TravelProfile.wf (p : TravelProfile) : Prop :=
  (∀ x ∈ p.passports, optDateValid x.issue_date ∧ optDateValid x.expiration_date) ∧
  (∀ x ∈ p.visas, optDateValid x.visa_date_issued ∧ optDateValid x.visa_expiration) ∧
  optPred (fun t => genderCanonical t.gender ∧ optDateValid t.date_of_birth)
    p.tsa_info ∧
  optPred (fun h => h.has_preferences = true) p.hotel_preferences ∧
  optPred (fun c => c.has_preferences = true) p.car_preferences ∧
  (∀ x ∈ p.custom_fields, x.field_id ≠ "") ∧
  (∀ x ∈ p.unused_tickets, x.currency ≠ "") ∧
  (∀ x ∈ p.southwest_unused_tickets, x.currency ≠ "") ∧
  (∀ x ∈ p.loyalty_programs,
    x.vendor_code ≠ "" ∧ x.account_number ≠ "" ∧ optDateValid x.expiration)

instance (p : TravelProfile) : Decidable p.wf := by
  unfold TravelProfile.wf
  infer_instance

/-! Lookup toolkit: `List.find?` over the chunk combinators. -/

theorem find?_optChild (pr : Xml → Bool) (c : Bool) (x : Xml) :
    (optChild c x).find? pr = if c && pr x then some x else none := by
  unfold optChild
  cases c <;> cases hpx : pr x <;> simp [List.find?_cons, hpx]

theorem find?_optMap {α : Type} (pr : Xml → Bool) (o : Option α) (f : α → Xml) :
    (optMap o f).find? pr =
      o.bind (fun a => if pr (f a) then some (f a) else none) := by
  cases o with
  | none => rfl
  | some a => cases hpx : pr (f a) <;> simp [optMap, List.find?_cons, hpx]

theorem optBind_none {A B : Type} (o : Option A) :
    (o.bind (fun _ => (none : Option B))) = none := by
  cases o <;> rfl

theorem dateToStr_ne_empty (d : PyDate) : dateToStr d ≠ "" := by
  intro hcon
  have h2 := congrArg String.data hcon
  simp [dateToStr] at h2

theorem dateToStr_bne_empty (d : PyDate) : (dateToStr d != "") = true := by
  simpa using dateToStr_ne_empty d

theorem root_find_general (p : TravelProfile) :
    (p.to_update_xml (some allFieldGroups)).find? "General" =
      some (Xml.elem "General" [] none
        (optChild (p.rule_class != "") (textElem "RuleClass" p.rule_class) ++
         optChild (p.travel_config_id != "")
           (textElem "TravelConfigID" p.travel_config_id))) := rfl

theorem root_find_national_ids (p : TravelProfile) :
    (p.to_update_xml (some allFieldGroups)).find? "NationalIDs" =
      (if !p.national_ids.isEmpty then
        some (Xml.elem "NationalIDs" [] none
          (p.national_ids.map NationalID.to_xml_element))
      else none) := by
  have hch : (p.to_update_xml (some allFieldGroups)).find? "NationalIDs" =
      List.find? (fun c => c.tag == "NationalIDs")
        (p.add_sections_to_xml allFieldGroups) := rfl
  rw [hch]
  unfold TravelProfile.add_sections_to_xml
  simp only [List.find?_append]
  rw [find?_eq_none_of_tags (tags_sectionGeneral p _) (by decide),
      find?_eq_none_of_tags (tags_sectionDriversLicenses p _) (by decide),
      find?_eq_none_of_tags (tags_sectionHasNoPassport p _) (by decide),
      find?_eq_none_of_tags (tags_sectionPassports p _) (by decide),
      find?_eq_none_of_tags (tags_sectionVisas p _) (by decide),
      find?_eq_none_of_tags (tags_sectionRatePreferences p _) (by decide),
      find?_eq_none_of_tags (tags_sectionDiscountCodes p _) (by decide),
      find?_eq_none_of_tags (tags_sectionAir p _) (by decide),
      find?_eq_none_of_tags (tags_sectionRail p _) (by decide),
      find?_eq_none_of_tags (tags_sectionCar p _) (by decide),
      find?_eq_none_of_tags (tags_sectionHotel p _) (by decide),
      find?_eq_none_of_tags (tags_sectionCustomFields p _) (by decide),
      find?_eq_none_of_tags (tags_sectionTSAInfo p _) (by decide),
      find?_eq_none_of_tags (tags_sectionUnusedTickets p _) (by decide),
      find?_eq_none_of_tags (tags_sectionSouthwestUnusedTickets p _) (by decide),
      find?_eq_none_of_tags (tags_sectionAdvantageMemberships p _) (by decide)]
  simp only [Option.none_or, Option.or_none]
  rw [show sectionNationalIDs p allFieldGroups =
      optChild (!p.national_ids.isEmpty)
        (Xml.elem "NationalIDs" [] none
          (p.national_ids.map NationalID.to_xml_element)) from rfl]
  rw [find?_optChild]
  simp [Xml.tag]

theorem root_find_drivers_licenses (p : TravelProfile) :
    (p.to_update_xml (some allFieldGroups)).find? "DriversLicenses" =
      (if !p.drivers_licenses.isEmpty then
        some (Xml.elem "DriversLicenses" [] none
          (p.drivers_licenses.map DriversLicense.to_xml_element))
      else none) := by
  have hch : (p.to_update_xml (some allFieldGroups)).find? "DriversLicenses" =
      List.find? (fun c => c.tag == "DriversLicenses")
        (p.add_sections_to_xml allFieldGroups) := rfl
  rw [hch]
  unfold TravelProfile.add_sections_to_xml
  simp only [List.find?_append]
  rw [find?_eq_none_of_tags (tags_sectionGeneral p _) (by decide),
      find?_eq_none_of_tags (tags_sectionNationalIDs p _) (by decide),
      find?_eq_none_of_tags (tags_sectionHasNoPassport p _) (by decide),
      find?_eq_none_of_tags (tags_sectionPassports p _) (by decide),
      find?_eq_none_of_tags (tags_sectionVisas p _) (by decide),
      find?_eq_none_of_tags (tags_sectionRatePreferences p _) (by decide),
      find?_eq_none_of_tags (tags_sectionDiscountCodes p _) (by decide),
      find?_eq_none_of_tags (tags_sectionAir p _) (by decide),
      find?_eq_none_of_tags (tags_sectionRail p _) (by decide),
      find?_eq_none_of_tags (tags_sectionCar p _) (by decide),
      find?_eq_none_of_tags (tags_sectionHotel p _) (by decide),
      find?_eq_none_of_tags (tags_sectionCustomFields p _) (by decide),
      find?_eq_none_of_tags (tags_sectionTSAInfo p _) (by decide),
      find?_eq_none_of_tags (tags_sectionUnusedTickets p _) (by decide),
      find?_eq_none_of_tags (tags_sectionSouthwestUnusedTickets p _) (by decide),
      find?_eq_none_of_tags (tags_sectionAdvantageMemberships p _) (by decide)]
  simp only [Option.none_or, Option.or_none]
  rw [show sectionDriversLicenses p allFieldGroups =
      optChild (!p.drivers_licenses.isEmpty)
        (Xml.elem "DriversLicenses" [] none
          (p.drivers_licenses.map DriversLicense.to_xml_element)) from rfl]
  rw [find?_optChild]
  simp [Xml.tag]

theorem root_find_has_no_passport (p : TravelProfile) :
    (p.to_update_xml (some allFieldGroups)).find? "HasNoPassport" =
      (if p.has_no_passport then
        some (textElem "HasNoPassport" "true")
      else none) := by
  have hch : (p.to_update_xml (some allFieldGroups)).find? "HasNoPassport" =
      List.find? (fun c => c.tag == "HasNoPassport")
        (p.add_sections_to_xml allFieldGroups) := rfl
  rw [hch]
  unfold TravelProfile.add_sections_to_xml
  simp only [List.find?_append]
  rw [find?_eq_none_of_tags (tags_sectionGeneral p _) (by decide),
      find?_eq_none_of_tags (tags_sectionNationalIDs p _) (by decide),
      find?_eq_none_of_tags (tags_sectionDriversLicenses p _) (by decide),
      find?_eq_none_of_tags (tags_sectionPassports p _) (by decide),
      find?_eq_none_of_tags (tags_sectionVisas p _) (by decide),
      find?_eq_none_of_tags (tags_sectionRatePreferences p _) (by decide),
      find?_eq_none_of_tags (tags_sectionDiscountCodes p _) (by decide),
      find?_eq_none_of_tags (tags_sectionAir p _) (by decide),
      find?_eq_none_of_tags (tags_sectionRail p _) (by decide),
      find?_eq_none_of_tags (tags_sectionCar p _) (by decide),
      find?_eq_none_of_tags (tags_sectionHotel p _) (by decide),
      find?_eq_none_of_tags (tags_sectionCustomFields p _) (by decide),
      find?_eq_none_of_tags (tags_sectionTSAInfo p _) (by decide),
      find?_eq_none_of_tags (tags_sectionUnusedTickets p _) (by decide),
      find?_eq_none_of_tags (tags_sectionSouthwestUnusedTickets p _) (by decide),
      find?_eq_none_of_tags (tags_sectionAdvantageMemberships p _) (by decide)]
  simp only [Option.none_or, Option.or_none]
  rw [show sectionHasNoPassport p allFieldGroups =
      optChild p.has_no_passport (textElem "HasNoPassport" "true") from rfl]
  rw [find?_optChild]
  simp [Xml.tag, textElem]

theorem root_find_passports (p : TravelProfile) :
    (p.to_update_xml (some allFieldGroups)).find? "Passports" =
      (if !p.passports.isEmpty then
        some (Xml.elem "Passports" [] none
          (p.passports.map Passport.to_xml_element))
      else none) := by
  have hch : (p.to_update_xml (some allFieldGroups)).find? "Passports" =
      List.find? (fun c => c.tag == "Passports")
        (p.add_sections_to_xml allFieldGroups) := rfl
  rw [hch]
  unfold TravelProfile.add_sections_to_xml
  simp only [List.find?_append]
  rw [find?_eq_none_of_tags (tags_sectionGeneral p _) (by decide),
      find?_eq_none_of_tags (tags_sectionNationalIDs p _) (by decide),
      find?_eq_none_of_tags (tags_sectionDriversLicenses p _) (by decide),
      find?_eq_none_of_tags (tags_sectionHasNoPassport p _) (by decide),
      find?_eq_none_of_tags (tags_sectionVisas p _) (by decide),
      find?_eq_none_of_tags (tags_sectionRatePreferences p _) (by decide),
      find?_eq_none_of_tags (tags_sectionDiscountCodes p _) (by decide),
      find?_eq_none_of_tags (tags_sectionAir p _) (by decide),
      find?_eq_none_of_tags (tags_sectionRail p _) (by decide),
      find?_eq_none_of_tags (tags_sectionCar p _) (by decide),
      find?_eq_none_of_tags (tags_sectionHotel p _) (by decide),
      find?_eq_none_of_tags (tags_sectionCustomFields p _) (by decide),
      find?_eq_none_of_tags (tags_sectionTSAInfo p _) (by decide),
      find?_eq_none_of_tags (tags_sectionUnusedTickets p _) (by decide),
      find?_eq_none_of_tags (tags_sectionSouthwestUnusedTickets p _) (by decide),
      find?_eq_none_of_tags (tags_sectionAdvantageMemberships p _) (by decide)]
  simp only [Option.none_or, Option.or_none]
  rw [show sectionPassports p allFieldGroups =
      optChild (!p.passports.isEmpty)
        (Xml.elem "Passports" [] none (p.passports.map Passport.to_xml_element)) from rfl]
  rw [find?_optChild]
  simp [Xml.tag]

theorem root_find_visas (p : TravelProfile) :
    (p.to_update_xml (some allFieldGroups)).find? "Visas" =
      (if !p.visas.isEmpty then
        some (Xml.elem "Visas" [] none (p.visas.map Visa.to_xml_element))
      else none) := by
  have hch : (p.to_update_xml (some allFieldGroups)).find? "Visas" =
      List.find? (fun c => c.tag == "Visas")
        (p.add_sections_to_xml allFieldGroups) := rfl
  rw [hch]
  unfold TravelProfile.add_sections_to_xml
  simp only [List.find?_append]
  rw [find?_eq_none_of_tags (tags_sectionGeneral p _) (by decide),
      find?_eq_none_of_tags (tags_sectionNationalIDs p _) (by decide),
      find?_eq_none_of_tags (tags_sectionDriversLicenses p _) (by decide),
      find?_eq_none_of_tags (tags_sectionHasNoPassport p _) (by decide),
      find?_eq_none_of_tags (tags_sectionPassports p _) (by decide),
      find?_eq_none_of_tags (tags_sectionRatePreferences p _) (by decide),
      find?_eq_none_of_tags (tags_sectionDiscountCodes p _) (by decide),
      find?_eq_none_of_tags (tags_sectionAir p _) (by decide),
      find?_eq_none_of_tags (tags_sectionRail p _) (by decide),
      find?_eq_none_of_tags (tags_sectionCar p _) (by decide),
      find?_eq_none_of_tags (tags_sectionHotel p _) (by decide),
      find?_eq_none_of_tags (tags_sectionCustomFields p _) (by decide),
      find?_eq_none_of_tags (tags_sectionTSAInfo p _) (by decide),
      find?_eq_none_of_tags (tags_sectionUnusedTickets p _) (by decide),
      find?_eq_none_of_tags (tags_sectionSouthwestUnusedTickets p _) (by decide),
      find?_eq_none_of_tags (tags_sectionAdvantageMemberships p _) (by decide)]
  simp only [Option.none_or, Option.or_none]
  rw [show sectionVisas p allFieldGroups =
      optChild (!p.visas.isEmpty)
        (Xml.elem "Visas" [] none (p.visas.map Visa.to_xml_element)) from rfl]
  rw [find?_optChild]
  simp [Xml.tag]

theorem root_find_rate_preferences (p : TravelProfile) :
    (p.to_update_xml (some allFieldGroups)).find? "RatePreferences" =
      p.rate_preferences.map RatePreference.to_xml_element := by
  have hch : (p.to_update_xml (some allFieldGroups)).find? "RatePreferences" =
      List.find? (fun c => c.tag == "RatePreferences")
        (p.add_sections_to_xml allFieldGroups) := rfl
  rw [hch]
  unfold TravelProfile.add_sections_to_xml
  simp only [List.find?_append]
  rw [find?_eq_none_of_tags (tags_sectionGeneral p _) (by decide),
      find?_eq_none_of_tags (tags_sectionNationalIDs p _) (by decide),
      find?_eq_none_of_tags (tags_sectionDriversLicenses p _) (by decide),
      find?_eq_none_of_tags (tags_sectionHasNoPassport p _) (by decide),
      find?_eq_none_of_tags (tags_sectionPassports p _) (by decide),
      find?_eq_none_of_tags (tags_sectionVisas p _) (by decide),
      find?_eq_none_of_tags (tags_sectionDiscountCodes p _) (by decide),
      find?_eq_none_of_tags (tags_sectionAir p _) (by decide),
      find?_eq_none_of_tags (tags_sectionRail p _) (by decide),
      find?_eq_none_of_tags (tags_sectionCar p _) (by decide),
      find?_eq_none_of_tags (tags_sectionHotel p _) (by decide),
      find?_eq_none_of_tags (tags_sectionCustomFields p _) (by decide),
      find?_eq_none_of_tags (tags_sectionTSAInfo p _) (by decide),
      find?_eq_none_of_tags (tags_sectionUnusedTickets p _) (by decide),
      find?_eq_none_of_tags (tags_sectionSouthwestUnusedTickets p _) (by decide),
      find?_eq_none_of_tags (tags_sectionAdvantageMemberships p _) (by decide)]
  simp only [Option.none_or, Option.or_none]
  rw [show sectionRatePreferences p allFieldGroups =
      optMap p.rate_preferences RatePreference.to_xml_element from rfl]
  cases ho : p.rate_preferences with
  | none => rfl
  | some a => simp [optMap, List.find?_cons, RatePreference.to_xml_element, Xml.tag]

theorem root_find_discount_codes (p : TravelProfile) :
    (p.to_update_xml (some allFieldGroups)).find? "DiscountCodes" =
      (if !p.discount_codes.isEmpty then
        some (Xml.elem "DiscountCodes" [] none
          (p.discount_codes.map DiscountCode.to_xml_element))
      else none) := by
  have hch : (p.to_update_xml (some allFieldGroups)).find? "DiscountCodes" =
      List.find? (fun c => c.tag == "DiscountCodes")
        (p.add_sections_to_xml allFieldGroups) := rfl
  rw [hch]
  unfold TravelProfile.add_sections_to_xml
  simp only [List.find?_append]
  rw [find?_eq_none_of_tags (tags_sectionGeneral p _) (by decide),
      find?_eq_none_of_tags (tags_sectionNationalIDs p _) (by decide),
      find?_eq_none_of_tags (tags_sectionDriversLicenses p _) (by decide),
      find?_eq_none_of_tags (tags_sectionHasNoPassport p _) (by decide),
      find?_eq_none_of_tags (tags_sectionPassports p _) (by decide),
      find?_eq_none_of_tags (tags_sectionVisas p _) (by decide),
      find?_eq_none_of_tags (tags_sectionRatePreferences p _) (by decide),
      find?_eq_none_of_tags (tags_sectionAir p _) (by decide),
      find?_eq_none_of_tags (tags_sectionRail p _) (by decide),
      find?_eq_none_of_tags (tags_sectionCar p _) (by decide),
      find?_eq_none_of_tags (tags_sectionHotel p _) (by decide),
      find?_eq_none_of_tags (tags_sectionCustomFields p _) (by decide),
      find?_eq_none_of_tags (tags_sectionTSAInfo p _) (by decide),
      find?_eq_none_of_tags (tags_sectionUnusedTickets p _) (by decide),
      find?_eq_none_of_tags (tags_sectionSouthwestUnusedTickets p _) (by decide),
      find?_eq_none_of_tags (tags_sectionAdvantageMemberships p _) (by decide)]
  simp only [Option.none_or, Option.or_none]
  rw [show sectionDiscountCodes p allFieldGroups =
      optChild (!p.discount_codes.isEmpty)
        (Xml.elem "DiscountCodes" [] none
          (p.discount_codes.map DiscountCode.to_xml_element)) from rfl]
  rw [find?_optChild]
  simp [Xml.tag]

theorem root_find_air (p : TravelProfile) :
    (p.to_update_xml (some allFieldGroups)).find? "Air" =
      p.air_preferences.map AirPreferences.to_xml_element := by
  have hch : (p.to_update_xml (some allFieldGroups)).find? "Air" =
      List.find? (fun c => c.tag == "Air")
        (p.add_sections_to_xml allFieldGroups) := rfl
  rw [hch]
  unfold TravelProfile.add_sections_to_xml
  simp only [List.find?_append]
  rw [find?_eq_none_of_tags (tags_sectionGeneral p _) (by decide),
      find?_eq_none_of_tags (tags_sectionNationalIDs p _) (by decide),
      find?_eq_none_of_tags (tags_sectionDriversLicenses p _) (by decide),
      find?_eq_none_of_tags (tags_sectionHasNoPassport p _) (by decide),
      find?_eq_none_of_tags (tags_sectionPassports p _) (by decide),
      find?_eq_none_of_tags (tags_sectionVisas p _) (by decide),
      find?_eq_none_of_tags (tags_sectionRatePreferences p _) (by decide),
      find?_eq_none_of_tags (tags_sectionDiscountCodes p _) (by decide),
      find?_eq_none_of_tags (tags_sectionRail p _) (by decide),
      find?_eq_none_of_tags (tags_sectionCar p _) (by decide),
      find?_eq_none_of_tags (tags_sectionHotel p _) (by decide),
      find?_eq_none_of_tags (tags_sectionCustomFields p _) (by decide),
      find?_eq_none_of_tags (tags_sectionTSAInfo p _) (by decide),
      find?_eq_none_of_tags (tags_sectionUnusedTickets p _) (by decide),
      find?_eq_none_of_tags (tags_sectionSouthwestUnusedTickets p _) (by decide),
      find?_eq_none_of_tags (tags_sectionAdvantageMemberships p _) (by decide)]
  simp only [Option.none_or, Option.or_none]
  rw [show sectionAir p allFieldGroups =
      optMap p.air_preferences AirPreferences.to_xml_element from rfl]
  cases ho : p.air_preferences with
  | none => rfl
  | some a => simp [optMap, List.find?_cons, AirPreferences.to_xml_element, Xml.tag]

theorem root_find_rail (p : TravelProfile) :
    (p.to_update_xml (some allFieldGroups)).find? "Rail" =
      p.rail_preferences.map RailPreferences.to_xml_element := by
  have hch : (p.to_update_xml (some allFieldGroups)).find? "Rail" =
      List.find? (fun c => c.tag == "Rail")
        (p.add_sections_to_xml allFieldGroups) := rfl
  rw [hch]
  unfold TravelProfile.add_sections_to_xml
  simp only [List.find?_append]
  rw [find?_eq_none_of_tags (tags_sectionGeneral p _) (by decide),
      find?_eq_none_of_tags (tags_sectionNationalIDs p _) (by decide),
      find?_eq_none_of_tags (tags_sectionDriversLicenses p _) (by decide),
      find?_eq_none_of_tags (tags_sectionHasNoPassport p _) (by decide),
      find?_eq_none_of_tags (tags_sectionPassports p _) (by decide),
      find?_eq_none_of_tags (tags_sectionVisas p _) (by decide),
      find?_eq_none_of_tags (tags_sectionRatePreferences p _) (by decide),
      find?_eq_none_of_tags (tags_sectionDiscountCodes p _) (by decide),
      find?_eq_none_of_tags (tags_sectionAir p _) (by decide),
      find?_eq_none_of_tags (tags_sectionCar p _) (by decide),
      find?_eq_none_of_tags (tags_sectionHotel p _) (by decide),
      find?_eq_none_of_tags (tags_sectionCustomFields p _) (by decide),
      find?_eq_none_of_tags (tags_sectionTSAInfo p _) (by decide),
      find?_eq_none_of_tags (tags_sectionUnusedTickets p _) (by decide),
      find?_eq_none_of_tags (tags_sectionSouthwestUnusedTickets p _) (by decide),
      find?_eq_none_of_tags (tags_sectionAdvantageMemberships p _) (by decide)]
  simp only [Option.none_or, Option.or_none]
  rw [show sectionRail p allFieldGroups =
      optMap p.rail_preferences RailPreferences.to_xml_element from rfl]
  cases ho : p.rail_preferences with
  | none => rfl
  | some a => simp [optMap, List.find?_cons, RailPreferences.to_xml_element, Xml.tag]

theorem root_find_car (p : TravelProfile) :
    (p.to_update_xml (some allFieldGroups)).find? "Car" =
      p.car_preferences.bind CarPreferences.to_xml_element := by
  have hch : (p.to_update_xml (some allFieldGroups)).find? "Car" =
      List.find? (fun c => c.tag == "Car")
        (p.add_sections_to_xml allFieldGroups) := rfl
  rw [hch]
  unfold TravelProfile.add_sections_to_xml
  simp only [List.find?_append]
  rw [find?_eq_none_of_tags (tags_sectionGeneral p _) (by decide),
      find?_eq_none_of_tags (tags_sectionNationalIDs p _) (by decide),
      find?_eq_none_of_tags (tags_sectionDriversLicenses p _) (by decide),
      find?_eq_none_of_tags (tags_sectionHasNoPassport p _) (by decide),
      find?_eq_none_of_tags (tags_sectionPassports p _) (by decide),
      find?_eq_none_of_tags (tags_sectionVisas p _) (by decide),
      find?_eq_none_of_tags (tags_sectionRatePreferences p _) (by decide),
      find?_eq_none_of_tags (tags_sectionDiscountCodes p _) (by decide),
      find?_eq_none_of_tags (tags_sectionAir p _) (by decide),
      find?_eq_none_of_tags (tags_sectionRail p _) (by decide),
      find?_eq_none_of_tags (tags_sectionHotel p _) (by decide),
      find?_eq_none_of_tags (tags_sectionCustomFields p _) (by decide),
      find?_eq_none_of_tags (tags_sectionTSAInfo p _) (by decide),
      find?_eq_none_of_tags (tags_sectionUnusedTickets p _) (by decide),
      find?_eq_none_of_tags (tags_sectionSouthwestUnusedTickets p _) (by decide),
      find?_eq_none_of_tags (tags_sectionAdvantageMemberships p _) (by decide)]
  simp only [Option.none_or, Option.or_none]
  rw [show sectionCar p allFieldGroups =
      (match p.car_preferences with
       | some c => (CarPreferences.to_xml_element c).toList
       | none => []) from rfl]
  cases p.car_preferences with
  | none => rfl
  | some c =>
    show ((CarPreferences.to_xml_element c).toList.find?
        (fun c => c.tag == "Car")) = (some c).bind CarPreferences.to_xml_element
    cases hcp : c.has_preferences <;>
      simp [CarPreferences.to_xml_element, hcp, List.find?_cons, Xml.tag]

theorem root_find_hotel (p : TravelProfile) :
    (p.to_update_xml (some allFieldGroups)).find? "Hotel" =
      p.hotel_preferences.bind HotelPreferences.to_xml_element := by
  have hch : (p.to_update_xml (some allFieldGroups)).find? "Hotel" =
      List.find? (fun c => c.tag == "Hotel")
        (p.add_sections_to_xml allFieldGroups) := rfl
  rw [hch]
  unfold TravelProfile.add_sections_to_xml
  simp only [List.find?_append]
  rw [find?_eq_none_of_tags (tags_sectionGeneral p _) (by decide),
      find?_eq_none_of_tags (tags_sectionNationalIDs p _) (by decide),
      find?_eq_none_of_tags (tags_sectionDriversLicenses p _) (by decide),
      find?_eq_none_of_tags (tags_sectionHasNoPassport p _) (by decide),
      find?_eq_none_of_tags (tags_sectionPassports p _) (by decide),
      find?_eq_none_of_tags (tags_sectionVisas p _) (by decide),
      find?_eq_none_of_tags (tags_sectionRatePreferences p _) (by decide),
      find?_eq_none_of_tags (tags_sectionDiscountCodes p _) (by decide),
      find?_eq_none_of_tags (tags_sectionAir p _) (by decide),
      find?_eq_none_of_tags (tags_sectionRail p _) (by decide),
      find?_eq_none_of_tags (tags_sectionCar p _) (by decide),
      find?_eq_none_of_tags (tags_sectionCustomFields p _) (by decide),
      find?_eq_none_of_tags (tags_sectionTSAInfo p _) (by decide),
      find?_eq_none_of_tags (tags_sectionUnusedTickets p _) (by decide),
      find?_eq_none_of_tags (tags_sectionSouthwestUnusedTickets p _) (by decide),
      find?_eq_none_of_tags (tags_sectionAdvantageMemberships p _) (by decide)]
  simp only [Option.none_or, Option.or_none]
  rw [show sectionHotel p allFieldGroups =
      (match p.hotel_preferences with
       | some c => (HotelPreferences.to_xml_element c).toList
       | none => []) from rfl]
  cases p.hotel_preferences with
  | none => rfl
  | some c =>
    show ((HotelPreferences.to_xml_element c).toList.find?
        (fun c => c.tag == "Hotel")) = (some c).bind HotelPreferences.to_xml_element
    cases hcp : c.has_preferences <;>
      simp [HotelPreferences.to_xml_element, hcp, List.find?_cons, Xml.tag]

theorem root_find_custom_fields (p : TravelProfile) :
    (p.to_update_xml (some allFieldGroups)).find? "CustomFields" =
      (if !p.custom_fields.isEmpty then
        some (Xml.elem "CustomFields" [] none
          (p.custom_fields.map CustomField.to_xml_element))
      else none) := by
  have hch : (p.to_update_xml (some allFieldGroups)).find? "CustomFields" =
      List.find? (fun c => c.tag == "CustomFields")
        (p.add_sections_to_xml allFieldGroups) := rfl
  rw [hch]
  unfold TravelProfile.add_sections_to_xml
  simp only [List.find?_append]
  rw [find?_eq_none_of_tags (tags_sectionGeneral p _) (by decide),
      find?_eq_none_of_tags (tags_sectionNationalIDs p _) (by decide),
      find?_eq_none_of_tags (tags_sectionDriversLicenses p _) (by decide),
      find?_eq_none_of_tags (tags_sectionHasNoPassport p _) (by decide),
      find?_eq_none_of_tags (tags_sectionPassports p _) (by decide),
      find?_eq_none_of_tags (tags_sectionVisas p _) (by decide),
      find?_eq_none_of_tags (tags_sectionRatePreferences p _) (by decide),
      find?_eq_none_of_tags (tags_sectionDiscountCodes p _) (by decide),
      find?_eq_none_of_tags (tags_sectionAir p _) (by decide),
      find?_eq_none_of_tags (tags_sectionRail p _) (by decide),
      find?_eq_none_of_tags (tags_sectionCar p _) (by decide),
      find?_eq_none_of_tags (tags_sectionHotel p _) (by decide),
      find?_eq_none_of_tags (tags_sectionTSAInfo p _) (by decide),
      find?_eq_none_of_tags (tags_sectionUnusedTickets p _) (by decide),
      find?_eq_none_of_tags (tags_sectionSouthwestUnusedTickets p _) (by decide),
      find?_eq_none_of_tags (tags_sectionAdvantageMemberships p _) (by decide)]
  simp only [Option.none_or, Option.or_none]
  rw [show sectionCustomFields p allFieldGroups =
      optChild (!p.custom_fields.isEmpty)
        (Xml.elem "CustomFields" [] none
          (p.custom_fields.map CustomField.to_xml_element)) from rfl]
  rw [find?_optChild]
  simp [Xml.tag]

theorem root_find_tsa_info (p : TravelProfile) :
    (p.to_update_xml (some allFieldGroups)).find? "TSAInfo" =
      p.tsa_info.map TSAInfo.to_xml_element := by
  have hch : (p.to_update_xml (some allFieldGroups)).find? "TSAInfo" =
      List.find? (fun c => c.tag == "TSAInfo")
        (p.add_sections_to_xml allFieldGroups) := rfl
  rw [hch]
  unfold TravelProfile.add_sections_to_xml
  simp only [List.find?_append]
  rw [find?_eq_none_of_tags (tags_sectionGeneral p _) (by decide),
      find?_eq_none_of_tags (tags_sectionNationalIDs p _) (by decide),
      find?_eq_none_of_tags (tags_sectionDriversLicenses p _) (by decide),
      find?_eq_none_of_tags (tags_sectionHasNoPassport p _) (by decide),
      find?_eq_none_of_tags (tags_sectionPassports p _) (by decide),
      find?_eq_none_of_tags (tags_sectionVisas p _) (by decide),
      find?_eq_none_of_tags (tags_sectionRatePreferences p _) (by decide),
      find?_eq_none_of_tags (tags_sectionDiscountCodes p _) (by decide),
      find?_eq_none_of_tags (tags_sectionAir p _) (by decide),
      find?_eq_none_of_tags (tags_sectionRail p _) (by decide),
      find?_eq_none_of_tags (tags_sectionCar p _) (by decide),
      find?_eq_none_of_tags (tags_sectionHotel p _) (by decide),
      find?_eq_none_of_tags (tags_sectionCustomFields p _) (by decide),
      find?_eq_none_of_tags (tags_sectionUnusedTickets p _) (by decide),
      find?_eq_none_of_tags (tags_sectionSouthwestUnusedTickets p _) (by decide),
      find?_eq_none_of_tags (tags_sectionAdvantageMemberships p _) (by decide)]
  simp only [Option.none_or, Option.or_none]
  rw [show sectionTSAInfo p allFieldGroups =
      optMap p.tsa_info TSAInfo.to_xml_element from rfl]
  cases ho : p.tsa_info with
  | none => rfl
  | some a => simp [optMap, List.find?_cons, TSAInfo.to_xml_element, Xml.tag]

theorem root_find_unused_tickets (p : TravelProfile) :
    (p.to_update_xml (some allFieldGroups)).find? "UnusedTickets" =
      (if !p.unused_tickets.isEmpty then
        some (Xml.elem "UnusedTickets" [] none
          (p.unused_tickets.map UnusedTicket.to_xml_element))
      else none) := by
  have hch : (p.to_update_xml (some allFieldGroups)).find? "UnusedTickets" =
      List.find? (fun c => c.tag == "UnusedTickets")
        (p.add_sections_to_xml allFieldGroups) := rfl
  rw [hch]
  unfold TravelProfile.add_sections_to_xml
  simp only [List.find?_append]
  rw [find?_eq_none_of_tags (tags_sectionGeneral p _) (by decide),
      find?_eq_none_of_tags (tags_sectionNationalIDs p _) (by decide),
      find?_eq_none_of_tags (tags_sectionDriversLicenses p _) (by decide),
      find?_eq_none_of_tags (tags_sectionHasNoPassport p _) (by decide),
      find?_eq_none_of_tags (tags_sectionPassports p _) (by decide),
      find?_eq_none_of_tags (tags_sectionVisas p _) (by decide),
      find?_eq_none_of_tags (tags_sectionRatePreferences p _) (by decide),
      find?_eq_none_of_tags (tags_sectionDiscountCodes p _) (by decide),
      find?_eq_none_of_tags (tags_sectionAir p _) (by decide),
      find?_eq_none_of_tags (tags_sectionRail p _) (by decide),
      find?_eq_none_of_tags (tags_sectionCar p _) (by decide),
      find?_eq_none_of_tags (tags_sectionHotel p _) (by decide),
      find?_eq_none_of_tags (tags_sectionCustomFields p _) (by decide),
      find?_eq_none_of_tags (tags_sectionTSAInfo p _) (by decide),
      find?_eq_none_of_tags (tags_sectionSouthwestUnusedTickets p _) (by decide),
      find?_eq_none_of_tags (tags_sectionAdvantageMemberships p _) (by decide)]
  simp only [Option.none_or, Option.or_none]
  rw [show sectionUnusedTickets p allFieldGroups =
      optChild (!p.unused_tickets.isEmpty)
        (Xml.elem "UnusedTickets" [] none
          (p.unused_tickets.map UnusedTicket.to_xml_element)) from rfl]
  rw [find?_optChild]
  simp [Xml.tag]

theorem root_find_southwest_unused_tickets (p : TravelProfile) :
    (p.to_update_xml (some allFieldGroups)).find? "SouthwestUnusedTickets" =
      (if !p.southwest_unused_tickets.isEmpty then
        some (Xml.elem "SouthwestUnusedTickets" [] none
          (p.southwest_unused_tickets.map UnusedTicket.to_xml_element))
      else none) := by
  have hch : (p.to_update_xml (some allFieldGroups)).find? "SouthwestUnusedTickets" =
      List.find? (fun c => c.tag == "SouthwestUnusedTickets")
        (p.add_sections_to_xml allFieldGroups) := rfl
  rw [hch]
  unfold TravelProfile.add_sections_to_xml
  simp only [List.find?_append]
  rw [find?_eq_none_of_tags (tags_sectionGeneral p _) (by decide),
      find?_eq_none_of_tags (tags_sectionNationalIDs p _) (by decide),
      find?_eq_none_of_tags (tags_sectionDriversLicenses p _) (by decide),
      find?_eq_none_of_tags (tags_sectionHasNoPassport p _) (by decide),
      find?_eq_none_of_tags (tags_sectionPassports p _) (by decide),
      find?_eq_none_of_tags (tags_sectionVisas p _) (by decide),
      find?_eq_none_of_tags (tags_sectionRatePreferences p _) (by decide),
      find?_eq_none_of_tags (tags_sectionDiscountCodes p _) (by decide),
      find?_eq_none_of_tags (tags_sectionAir p _) (by decide),
      find?_eq_none_of_tags (tags_sectionRail p _) (by decide),
      find?_eq_none_of_tags (tags_sectionCar p _) (by decide),
      find?_eq_none_of_tags (tags_sectionHotel p _) (by decide),
      find?_eq_none_of_tags (tags_sectionCustomFields p _) (by decide),
      find?_eq_none_of_tags (tags_sectionTSAInfo p _) (by decide),
      find?_eq_none_of_tags (tags_sectionUnusedTickets p _) (by decide),
      find?_eq_none_of_tags (tags_sectionAdvantageMemberships p _) (by decide)]
  simp only [Option.none_or, Option.or_none]
  rw [show sectionSouthwestUnusedTickets p allFieldGroups =
      optChild (!p.southwest_unused_tickets.isEmpty)
        (Xml.elem "SouthwestUnusedTickets" [] none
          (p.southwest_unused_tickets.map UnusedTicket.to_xml_element)) from rfl]
  rw [find?_optChild]
  simp [Xml.tag]

theorem root_find_advantage_memberships (p : TravelProfile) :
    (p.to_update_xml (some allFieldGroups)).find? "AdvantageMemberships" =
      (if !p.loyalty_programs.isEmpty then
        some (Xml.elem "AdvantageMemberships" [] none
          (p.loyalty_programs.map (fun l => l.to_xml_element "Membership")))
      else none) := by
  have hch : (p.to_update_xml (some allFieldGroups)).find? "AdvantageMemberships" =
      List.find? (fun c => c.tag == "AdvantageMemberships")
        (p.add_sections_to_xml allFieldGroups) := rfl
  rw [hch]
  unfold TravelProfile.add_sections_to_xml
  simp only [List.find?_append]
  rw [find?_eq_none_of_tags (tags_sectionGeneral p _) (by decide),
      find?_eq_none_of_tags (tags_sectionNationalIDs p _) (by decide),
      find?_eq_none_of_tags (tags_sectionDriversLicenses p _) (by decide),
      find?_eq_none_of_tags (tags_sectionHasNoPassport p _) (by decide),
      find?_eq_none_of_tags (tags_sectionPassports p _) (by decide),
      find?_eq_none_of_tags (tags_sectionVisas p _) (by decide),
      find?_eq_none_of_tags (tags_sectionRatePreferences p _) (by decide),
      find?_eq_none_of_tags (tags_sectionDiscountCodes p _) (by decide),
      find?_eq_none_of_tags (tags_sectionAir p _) (by decide),
      find?_eq_none_of_tags (tags_sectionRail p _) (by decide),
      find?_eq_none_of_tags (tags_sectionCar p _) (by decide),
      find?_eq_none_of_tags (tags_sectionHotel p _) (by decide),
      find?_eq_none_of_tags (tags_sectionCustomFields p _) (by decide),
      find?_eq_none_of_tags (tags_sectionTSAInfo p _) (by decide),
      find?_eq_none_of_tags (tags_sectionUnusedTickets p _) (by decide),
      find?_eq_none_of_tags (tags_sectionSouthwestUnusedTickets p _) (by decide)]
  simp only [Option.none_or, Option.or_none]
  rw [show sectionAdvantageMemberships p allFieldGroups =
      optChild (!p.loyalty_programs.isEmpty)
        (Xml.elem "AdvantageMemberships" [] none
          (p.loyalty_programs.map (fun l => l.to_xml_element "Membership"))) from rfl]
  rw [find?_optChild]
  simp [Xml.tag]

/-! Field-lookup helpers for the entity round-trip lemmas. -/

theorem findtextD_of_find?_some_text (e : Xml) (t v dflt : String)
    (h : e.find? t = some (textElem t v)) : e.findtextD t dflt = v := by
  unfold Xml.findtextD
  rw [h]
  rfl

theorem findtextD_of_find?_none (e : Xml) (t dflt : String)
    (h : e.find? t = none) : e.findtextD t dflt = dflt := by
  unfold Xml.findtextD
  rw [h]

theorem findtextD_strOpt (e : Xml) (t v : String)
    (hfind : e.find? t = if (v != "") then some (textElem t v) else none) :
    e.findtextD t "" = v := by
  by_cases hv : v = ""
  · subst hv
    unfold Xml.findtextD
    rw [hfind]
    rfl
  · have hb : (v != "") = true := by simpa using hv
    unfold Xml.findtextD
    rw [hfind, hb]
    rfl

theorem parse_flag (e : Xml) (t : String) (b : Bool)
    (hfind : e.find? t = if b then some (textElem t "true") else none) :
    (e.findtextD t "false" == "true") = b := by
  cases b
  · rw [findtextD_of_find?_none _ _ _ (by simpa using hfind)]
    rfl
  · rw [findtextD_of_find?_some_text _ _ _ _ (by simpa using hfind)]
    rfl

theorem parseDateOpt_of_find? (e : Xml) (t : String) (o : Option PyDate)
    (hfind : e.find? t = o.map (fun d => textElem t (dateToStr d)))
    (hv : optDateValid o) : parseDateOpt e t = o := by
  cases o with
  | none =>
    unfold parseDateOpt
    rw [findtextD_of_find?_none _ _ _ (by simpa using hfind)]
    rfl
  | some d =>
    simp only [optDateValid] at hv
    unfold parseDateOpt
    rw [findtextD_of_find?_some_text _ _ _ _ (by simpa using hfind)]
    simp [dateToStr_bne_empty d, strToDate_dateToStr d hv]

/-! Enum wire values are never empty. -/

theorem seatPreference_val_bne (v : SeatPreference) : (v.val != "") = true := by
  cases v <;> rfl

theorem seatSection_val_bne (v : SeatSection) : (v.val != "") = true := by
  cases v <;> rfl

theorem mealType_val_bne (v : MealType) : (v.val != "") = true := by
  cases v <;> rfl

theorem hotelRoomType_val_bne (v : HotelRoomType) : (v.val != "") = true := by
  cases v <;> rfl

theorem smokingPreference_val_bne (v : SmokingPreference) :
    (v.val != "") = true := by
  cases v <;> rfl

theorem carType_val_bne (v : CarType) : (v.val != "") = true := by
  cases v <;> rfl

theorem transmissionType_val_bne (v : TransmissionType) :
    (v.val != "") = true := by
  cases v <;> rfl

theorem loyaltyProgramType_val_bne (v : LoyaltyProgramType) :
    (v.val != "") = true := by
  cases v <;> rfl

theorem loyaltyProgramType_ofVal_val (x : LoyaltyProgramType) :
    LoyaltyProgramType.ofVal x.val = some x := by
  cases x <;> rfl

/-! Entity round-trip lemmas. -/

theorem parseNationalID_roundtrip (x : NationalID) :
    parseNationalID (x.to_xml_element) = x := rfl

theorem parseDriversLicense_roundtrip (x : DriversLicense) :
    parseDriversLicense (x.to_xml_element) = x := by
  obtain ⟨ln, cc, sp⟩ := x
  by_cases hsp : sp = ""
  · subst hsp
    rfl
  · have hb : (sp != "") = true := by simpa using hsp
    simp [parseDriversLicense, DriversLicense.to_xml_element, Xml.findtextD,
      Xml.find?, List.find?_cons, optChild, hb, textElem, Xml.tag, Xml.text,
      Xml.children]

theorem parsePassport_roundtrip (x : Passport)
    (h1 : optDateValid x.issue_date) (h2 : optDateValid x.expiration_date) :
    parsePassport (x.to_xml_element) = stripPassport x := by
  obtain ⟨dn, na, ic, idt, edt, pr⟩ := x
  have hf1 : (Passport.to_xml_element ⟨dn, na, ic, idt, edt, pr⟩).find?
      "PassportDateIssued" =
      idt.map (fun d => textElem "PassportDateIssued" (dateToStr d)) := by
    cases idt <;> cases edt <;>
      simp [Passport.to_xml_element, Xml.find?, Xml.children, List.find?_append,
        List.find?_cons, optMap, textElem, Xml.tag]
  have hf2 : (Passport.to_xml_element ⟨dn, na, ic, idt, edt, pr⟩).find?
      "PassportExpiration" =
      edt.map (fun d => textElem "PassportExpiration" (dateToStr d)) := by
    cases idt <;> cases edt <;>
      simp [Passport.to_xml_element, Xml.find?, Xml.children, List.find?_append,
        List.find?_cons, optMap, textElem, Xml.tag]
  unfold parsePassport stripPassport
  rw [parseDateOpt_of_find? _ _ _ hf1 h1, parseDateOpt_of_find? _ _ _ hf2 h2]
  rfl

theorem parseVisa_roundtrip (x : Visa)
    (h1 : optDateValid x.visa_date_issued) (h2 : optDateValid x.visa_expiration) :
    parseVisa (x.to_xml_element) = x := by
  obtain ⟨vn, num, vt, vc, vdi, vex⟩ := x
  have hf1 : (Visa.to_xml_element ⟨vn, num, vt, vc, vdi, vex⟩).find?
      "VisaDateIssued" =
      vdi.map (fun d => textElem "VisaDateIssued" (dateToStr d)) := by
    cases vdi <;> cases vex <;>
      simp [Visa.to_xml_element, Xml.find?, Xml.children, List.find?_append,
        List.find?_cons, optMap, textElem, Xml.tag]
  have hf2 : (Visa.to_xml_element ⟨vn, num, vt, vc, vdi, vex⟩).find?
      "VisaExpiration" =
      vex.map (fun d => textElem "VisaExpiration" (dateToStr d)) := by
    cases vdi <;> cases vex <;>
      simp [Visa.to_xml_element, Xml.find?, Xml.children, List.find?_append,
        List.find?_cons, optMap, textElem, Xml.tag]
  have hfc : (Visa.to_xml_element ⟨vn, num, vt, vc, vdi, vex⟩).findtextD
      "VisaCountryIssued" "" = vc := by
    refine findtextD_of_find?_some_text _ _ _ _ ?_
    cases vdi <;> cases vex <;>
      simp [Visa.to_xml_element, Xml.find?, Xml.children, List.find?_append,
        List.find?_cons, optMap, textElem, Xml.tag]
  have hft : (Visa.to_xml_element ⟨vn, num, vt, vc, vdi, vex⟩).findtextD
      "VisaType" "Unknown" = vt.val := rfl
  unfold parseVisa
  rw [parseDateOpt_of_find? _ _ _ hf1 h1, parseDateOpt_of_find? _ _ _ hf2 h2,
    hfc, hft, visaType_ofVal_val]
  rfl

theorem parseRatePreference_roundtrip (x : RatePreference) :
    parseRatePreference (RatePreference.to_xml_element x) = x := by
  obtain ⟨a, b, c, d⟩ := x
  cases a <;> cases b <;> cases c <;> cases d <;> rfl

theorem tsa_field_gender (x : TSAInfo) (hg : genderCanonical x.gender) :
    (TSAInfo.to_xml_element x).findtextD "Gender" "" = x.gender := by
  obtain ⟨ktn, g, dob, rn, nmn⟩ := x
  simp only [genderCanonical] at hg
  rcases hg with h | h | h | h | h | h
  · subst h
    simp [TSAInfo.to_xml_element, Xml.findtextD, Xml.find?, Xml.children,
      List.find?_append, List.find?_cons, find?_optChild, find?_optMap,
      optBind_none, textElem, Xml.tag, Xml.text]
  all_goals (subst h; rfl)

theorem tsa_field_precheck (x : TSAInfo) :
    (TSAInfo.to_xml_element x).findtextD "PreCheckNumber" "" =
      x.known_traveler_number := by
  refine findtextD_strOpt _ _ _ ?_
  simp [TSAInfo.to_xml_element, Xml.find?, Xml.children, List.find?_append,
    List.find?_cons, find?_optChild, find?_optMap, optBind_none, textElem, Xml.tag]

theorem tsa_field_redress (x : TSAInfo) :
    (TSAInfo.to_xml_element x).findtextD "RedressNumber" "" =
      x.redress_number := by
  refine findtextD_strOpt _ _ _ ?_
  simp [TSAInfo.to_xml_element, Xml.find?, Xml.children, List.find?_append,
    List.find?_cons, find?_optChild, find?_optMap, optBind_none, textElem, Xml.tag]

theorem tsa_field_nmn (x : TSAInfo) :
    (TSAInfo.to_xml_element x).findtextD "NoMiddleName" "false" =
      boolStr x.no_middle_name := by
  refine findtextD_of_find?_some_text _ _ _ _ ?_
  simp [TSAInfo.to_xml_element, Xml.find?, Xml.children, List.find?_append,
    List.find?_cons, find?_optChild, find?_optMap, optBind_none, textElem, Xml.tag]

theorem tsa_field_dob (x : TSAInfo) :
    (TSAInfo.to_xml_element x).find? "DateOfBirth" =
      x.date_of_birth.map (fun d => textElem "DateOfBirth" (dateToStr d)) := by
  cases hdob : x.date_of_birth <;>
    simp [TSAInfo.to_xml_element, Xml.find?, Xml.children, List.find?_append,
      List.find?_cons, find?_optChild, find?_optMap, optBind_none, textElem, Xml.tag, hdob]

theorem parseTSAInfo_roundtrip (x : TSAInfo) (hg : genderCanonical x.gender)
    (hd : optDateValid x.date_of_birth) :
    parseTSAInfo (TSAInfo.to_xml_element x) = x := by
  obtain ⟨ktn, g, dob, rn, nmn⟩ := x
  unfold parseTSAInfo
  rw [tsa_field_gender _ hg, tsa_field_precheck, tsa_field_redress,
    tsa_field_nmn, parseDateOpt_of_find? _ _ _ (tsa_field_dob _) hd]
  cases nmn <;> rfl

theorem parseAir_roundtrip (a : AirPreferences) :
    parseAirPreferences (AirPreferences.to_xml_element a) = stripAir a := by
  obtain ⟨sp, ss, mp, ha, ao, mem⟩ := a
  cases sp <;> cases ss <;> cases mp <;> by_cases hha : ha = "" <;>
    by_cases hao : ao = "" <;>
    simp [parseAirPreferences, AirPreferences.to_xml_element, stripAir,
      Xml.findtextD, Xml.find?, Xml.children, List.find?_append,
      List.find?_cons, find?_optChild, find?_optMap, optBind_none, textElem, Xml.tag, Xml.text, hha, hao,
      seatPreference_val_bne, seatSection_val_bne, mealType_val_bne,
      seatPreference_ofVal_val, seatSection_ofVal_val, mealType_ofVal_val]

theorem hotel_field_room (x : HotelPreferences) :
    (Xml.elem "Hotel" [] none x.xml_children).find? "RoomType" =
      x.room_type.map (fun r => textElem "RoomType" r.val) := by
  cases hrt : x.room_type <;>
    simp [HotelPreferences.xml_children, Xml.find?, Xml.children,
      List.find?_append, List.find?_cons, find?_optChild, find?_optMap,
      optBind_none, textElem, Xml.tag, hrt]

theorem hotel_field_other (x : HotelPreferences) :
    (Xml.elem "Hotel" [] none x.xml_children).findtextD "HotelOther" "" =
      x.hotel_other := by
  refine findtextD_strOpt _ _ _ ?_
  simp [HotelPreferences.xml_children, Xml.find?, Xml.children,
    List.find?_append, List.find?_cons, find?_optChild, find?_optMap,
    optBind_none, textElem, Xml.tag]

theorem hotel_field_foam (x : HotelPreferences) :
    ((Xml.elem "Hotel" [] none x.xml_children).findtextD "PreferFoamPillows"
      "false" == "true") = x.prefer_foam_pillows := by
  refine parse_flag _ _ _ ?_
  simp [HotelPreferences.xml_children, Xml.find?, Xml.children,
    List.find?_append, List.find?_cons, find?_optChild, find?_optMap,
    optBind_none, textElem, Xml.tag]

theorem hotel_field_crib (x : HotelPreferences) :
    ((Xml.elem "Hotel" [] none x.xml_children).findtextD "PreferCrib"
      "false" == "true") = x.prefer_crib := by
  refine parse_flag _ _ _ ?_
  simp [HotelPreferences.xml_children, Xml.find?, Xml.children,
    List.find?_append, List.find?_cons, find?_optChild, find?_optMap,
    optBind_none, textElem, Xml.tag]

theorem hotel_field_rollaway (x : HotelPreferences) :
    ((Xml.elem "Hotel" [] none x.xml_children).findtextD "PreferRollawayBed"
      "false" == "true") = x.prefer_rollaway_bed := by
  refine parse_flag _ _ _ ?_
  simp [HotelPreferences.xml_children, Xml.find?, Xml.children,
    List.find?_append, List.find?_cons, find?_optChild, find?_optMap,
    optBind_none, textElem, Xml.tag]

theorem hotel_field_gym (x : HotelPreferences) :
    ((Xml.elem "Hotel" [] none x.xml_children).findtextD "PreferGym"
      "false" == "true") = x.prefer_gym := by
  refine parse_flag _ _ _ ?_
  simp [HotelPreferences.xml_children, Xml.find?, Xml.children,
    List.find?_append, List.find?_cons, find?_optChild, find?_optMap,
    optBind_none, textElem, Xml.tag]

theorem hotel_field_pool (x : HotelPreferences) :
    ((Xml.elem "Hotel" [] none x.xml_children).findtextD "PreferPool"
      "false" == "true") = x.prefer_pool := by
  refine parse_flag _ _ _ ?_
  simp [HotelPreferences.xml_children, Xml.find?, Xml.children,
    List.find?_append, List.find?_cons, find?_optChild, find?_optMap,
    optBind_none, textElem, Xml.tag]

theorem hotel_field_room_service (x : HotelPreferences) :
    ((Xml.elem "Hotel" [] none x.xml_children).findtextD "PreferRoomService"
      "false" == "true") = x.prefer_room_service := by
  refine parse_flag _ _ _ ?_
  simp [HotelPreferences.xml_children, Xml.find?, Xml.children,
    List.find?_append, List.find?_cons, find?_optChild, find?_optMap,
    optBind_none, textElem, Xml.tag]

theorem hotel_field_early (x : HotelPreferences) :
    ((Xml.elem "Hotel" [] none x.xml_children).findtextD "PreferEarlyCheckIn"
      "false" == "true") = x.prefer_early_checkin := by
  refine parse_flag _ _ _ ?_
  simp [HotelPreferences.xml_children, Xml.find?, Xml.children,
    List.find?_append, List.find?_cons, find?_optChild, find?_optMap,
    optBind_none, textElem, Xml.tag]

theorem parseHotel_roundtrip (x : HotelPreferences)
    (hp : x.has_preferences = true) :
    (HotelPreferences.to_xml_element x).map parseHotelPreferences =
      some (stripHotel x) := by
  unfold HotelPreferences.to_xml_element
  rw [if_pos hp]
  simp only [Option.map_some', Option.some.injEq]
  have hroom : (if ((Xml.elem "Hotel" [] none x.xml_children).findtextD
        "RoomType" "" != "") then
      HotelRoomType.ofVal ((Xml.elem "Hotel" [] none
        x.xml_children).findtextD "RoomType" "")
    else none) = x.room_type := by
    cases hrt : x.room_type with
    | none =>
      rw [findtextD_of_find?_none _ _ _ (by simpa [hrt] using hotel_field_room x)]
      rfl
    | some r =>
      rw [findtextD_of_find?_some_text _ _ _ _
        (by simpa [hrt] using hotel_field_room x)]
      simp [hotelRoomType_val_bne, hotelRoomType_ofVal_val]
  simp only [parseHotelPreferences]
  rw [hroom, hotel_field_other, hotel_field_foam, hotel_field_crib,
    hotel_field_rollaway, hotel_field_gym, hotel_field_pool,
    hotel_field_room_service, hotel_field_early]
  rfl

theorem parseCar_roundtrip (x : CarPreferences) (hp : x.has_preferences = true) :
    (CarPreferences.to_xml_element x).map parseCarPreferences =
      some (stripCar x) := by
  obtain ⟨ct, tr, sm, gps, ski, mem⟩ := x
  unfold CarPreferences.to_xml_element
  rw [if_pos hp]
  simp only [Option.map_some', Option.some.injEq]
  cases ct <;> cases tr <;> cases sm <;> cases gps <;> cases ski <;>
    simp [parseCarPreferences, stripCar, Xml.findtextD, Xml.find?, Xml.children,
      List.find?_append, List.find?_cons, find?_optChild, find?_optMap,
      optBind_none, textElem, Xml.tag, Xml.text,
      carType_val_bne, transmissionType_val_bne, smokingPreference_val_bne,
      carType_ofVal_val, transmissionType_ofVal_val,
      smokingPreference_ofVal_val]

theorem rail_field_seat (x : RailPreferences) :
    (RailPreferences.to_xml_element x).findtextD "Seat" "" = x.seat := by
  refine findtextD_strOpt _ _ _ ?_
  simp [RailPreferences.to_xml_element, Xml.find?, Xml.children,
    List.find?_append, find?_optChild, textElem, Xml.tag]

theorem rail_field_coach (x : RailPreferences) :
    (RailPreferences.to_xml_element x).findtextD "Coach" "" = x.coach := by
  refine findtextD_strOpt _ _ _ ?_
  simp [RailPreferences.to_xml_element, Xml.find?, Xml.children,
    List.find?_append, find?_optChild, textElem, Xml.tag]

theorem rail_field_noise (x : RailPreferences) :
    (RailPreferences.to_xml_element x).findtextD "NoiseComfort" "" =
      x.noise_comfort := by
  refine findtextD_strOpt _ _ _ ?_
  simp [RailPreferences.to_xml_element, Xml.find?, Xml.children,
    List.find?_append, find?_optChild, textElem, Xml.tag]

theorem rail_field_bed (x : RailPreferences) :
    (RailPreferences.to_xml_element x).findtextD "Bed" "" = x.bed := by
  refine findtextD_strOpt _ _ _ ?_
  simp [RailPreferences.to_xml_element, Xml.find?, Xml.children,
    List.find?_append, find?_optChild, textElem, Xml.tag]

theorem rail_field_bed_category (x : RailPreferences) :
    (RailPreferences.to_xml_element x).findtextD "BedCategory" "" =
      x.bed_category := by
  refine findtextD_strOpt _ _ _ ?_
  simp [RailPreferences.to_xml_element, Xml.find?, Xml.children,
    List.find?_append, find?_optChild, textElem, Xml.tag]

theorem rail_field_berth (x : RailPreferences) :
    (RailPreferences.to_xml_element x).findtextD "Berth" "" = x.berth := by
  refine findtextD_strOpt _ _ _ ?_
  simp [RailPreferences.to_xml_element, Xml.find?, Xml.children,
    List.find?_append, find?_optChild, textElem, Xml.tag]

theorem rail_field_deck (x : RailPreferences) :
    (RailPreferences.to_xml_element x).findtextD "Deck" "" = x.deck := by
  refine findtextD_strOpt _ _ _ ?_
  simp [RailPreferences.to_xml_element, Xml.find?, Xml.children,
    List.find?_append, find?_optChild, textElem, Xml.tag]

theorem rail_field_space (x : RailPreferences) :
    (RailPreferences.to_xml_element x).findtextD "SpaceType" "" =
      x.space_type := by
  refine findtextD_strOpt _ _ _ ?_
  simp [RailPreferences.to_xml_element, Xml.find?, Xml.children,
    List.find?_append, find?_optChild, textElem, Xml.tag]

theorem rail_field_fare (x : RailPreferences) :
    (RailPreferences.to_xml_element x).findtextD "FareSpaceComfort" "" =
      x.fare_space_comfort := by
  refine findtextD_strOpt _ _ _ ?_
  simp [RailPreferences.to_xml_element, Xml.find?, Xml.children,
    List.find?_append, find?_optChild, textElem, Xml.tag]

theorem rail_field_meals (x : RailPreferences) :
    (RailPreferences.to_xml_element x).findtextD "SpecialMeals" "" =
      x.special_meals := by
  refine findtextD_strOpt _ _ _ ?_
  simp [RailPreferences.to_xml_element, Xml.find?, Xml.children,
    List.find?_append, find?_optChild, textElem, Xml.tag]

theorem rail_field_contingencies (x : RailPreferences) :
    (RailPreferences.to_xml_element x).findtextD "Contingencies" "" =
      x.contingencies := by
  refine findtextD_strOpt _ _ _ ?_
  simp [RailPreferences.to_xml_element, Xml.find?, Xml.children,
    List.find?_append, find?_optChild, textElem, Xml.tag]

theorem parseRail_roundtrip (x : RailPreferences) :
    parseRailPreferences (RailPreferences.to_xml_element x) = stripRail x := by
  unfold parseRailPreferences
  rw [rail_field_seat, rail_field_coach, rail_field_noise, rail_field_bed,
    rail_field_bed_category, rail_field_berth, rail_field_deck,
    rail_field_space, rail_field_fare, rail_field_meals,
    rail_field_contingencies]
  rfl

theorem parseUnusedTicket_roundtrip (x : UnusedTicket) (hc : x.currency ≠ "") :
    parseUnusedTicket (x.to_xml_element) = x := by
  obtain ⟨tn, ac, am, cur⟩ := x
  have hb : (cur != "") = true := by simpa using hc
  by_cases ham : am = ""
  · simp [parseUnusedTicket, UnusedTicket.to_xml_element, Xml.findtextD,
      Xml.find?, Xml.children, List.find?_append, List.find?_cons, find?_optChild, textElem, Xml.tag, Xml.text, ham, hb]
  · have hab : (am != "") = true := by simpa using ham
    simp [parseUnusedTicket, UnusedTicket.to_xml_element, Xml.findtextD,
      Xml.find?, Xml.children, List.find?_append, List.find?_cons, find?_optChild, textElem, Xml.tag, Xml.text, hab, hb]

theorem parseCustomFields_roundtrip (l : List CustomField)
    (hids : ∀ x ∈ l, x.field_id ≠ "") :
    parseCustomFields (Xml.elem "CustomFields" [] none
      (l.map CustomField.to_xml_element)) = l.map stripCustomField := by
  unfold parseCustomFields Xml.findall
  induction l with
  | nil => rfl
  | cons a t ih =>
    have hid := hids a (by simp)
    have hrest : ∀ x ∈ t, x.field_id ≠ "" := fun x hx => hids x (by simp [hx])
    have hb : (a.field_id != "") = true := by simpa using hid
    simp only [List.map_cons, Xml.children, List.filter_cons]
    have htag : ((CustomField.to_xml_element a).tag == "CustomField") = true := rfl
    rw [htag]
    simp only [if_true, List.filterMap_cons]
    have hattr : (CustomField.to_xml_element a).attrD "Name" "" = a.field_id := rfl
    rw [hattr, hb]
    simp only [if_true]
    have htail := ih hrest
    simp only [Xml.children] at htail
    simp at htail
    simp only [Xml.text.eq_def] at htail
    simp [htail, stripCustomField, CustomField.to_xml_element, Xml.text]

theorem parseMembership_item (a : LoyaltyProgram) (h1 : a.vendor_code ≠ "")
    (h2 : a.account_number ≠ "") (h3 : optDateValid a.expiration) :
    (let m := a.to_xml_element "Membership"
     let vendor_code := m.findtextD "VendorCode" ""
     let vendor_type := m.findtextD "VendorType" ""
     let program_number := m.findtextD "ProgramNumber" ""
     if vendor_code != "" && vendor_type != "" && program_number != "" then
       some { program_type := programTypeMapGet vendor_type
              vendor_code := vendor_code
              account_number := program_number
              expiration := parseDateOpt m "ExpirationDate" : LoyaltyProgram }
     else none) = some (stripLoyalty a) := by
  obtain ⟨pt, vc, an, s1, s2, s3, s4, s5, s6, s7, exp⟩ := a
  have hb1 : (vc != "") = true := by simpa using h1
  have hb2 : (an != "") = true := by simpa using h2
  have hexp : parseDateOpt (LoyaltyProgram.to_xml_element
      ⟨pt, vc, an, s1, s2, s3, s4, s5, s6, s7, exp⟩ "Membership")
      "ExpirationDate" = exp := by
    refine parseDateOpt_of_find? _ _ _ ?_ h3
    cases exp <;>
      simp [LoyaltyProgram.to_xml_element, Xml.find?, Xml.children,
        List.find?_append, List.find?_cons, find?_optChild, find?_optMap,
        optBind_none, textElem, Xml.tag]
  simp only []
  rw [show (LoyaltyProgram.to_xml_element
      ⟨pt, vc, an, s1, s2, s3, s4, s5, s6, s7, exp⟩ "Membership").findtextD
      "VendorCode" "" = vc from rfl,
    show (LoyaltyProgram.to_xml_element
      ⟨pt, vc, an, s1, s2, s3, s4, s5, s6, s7, exp⟩ "Membership").findtextD
      "VendorType" "" = pt.val from rfl,
    show (LoyaltyProgram.to_xml_element
      ⟨pt, vc, an, s1, s2, s3, s4, s5, s6, s7, exp⟩ "Membership").findtextD
      "ProgramNumber" "" = an from rfl,
    hb1, hb2, loyaltyProgramType_val_bne, hexp]
  simp [programTypeMapGet, loyaltyProgramType_ofVal_val, stripLoyalty]

theorem parseMemberships_roundtrip (l : List LoyaltyProgram)
    (hwf : ∀ x ∈ l, x.vendor_code ≠ "" ∧ x.account_number ≠ "" ∧
      optDateValid x.expiration) :
    parseMemberships (Xml.elem "AdvantageMemberships" [] none
      (l.map (fun m => m.to_xml_element "Membership"))) =
      l.map stripLoyalty := by
  unfold parseMemberships Xml.findall
  induction l with
  | nil => rfl
  | cons a t ih =>
    obtain ⟨h1, h2, h3⟩ := hwf a (by simp)
    have hrest : ∀ x ∈ t, x.vendor_code ≠ "" ∧ x.account_number ≠ "" ∧
        optDateValid x.expiration := fun x hx => hwf x (by simp [hx])
    simp only [List.map_cons, Xml.children, List.filter_cons]
    have htag : ((a.to_xml_element "Membership").tag == "Membership") = true := rfl
    rw [htag]
    simp only [if_true, List.filterMap_cons]
    have hitem := parseMembership_item a h1 h2 h3
    have htail := ih hrest
    simp only [Xml.children] at htail
    simp at htail hitem
    simp [htail, hitem]

/-! Glue for the whole-profile round trip: reading a container of encoded
entities back, strip idempotence, and the per-field characterisation of the
decoded profile. -/

theorem map_congr_mem {A B : Type} {f g : A → B} :
    ∀ {l : List A}, (∀ a ∈ l, f a = g a) → l.map f = l.map g := by
  intro l
  induction l with
  | nil => intro _; rfl
  | cons a t ih =>
    intro h
    simp only [List.map_cons]
    rw [h a (by simp), ih (fun x hx => h x (by simp [hx]))]

theorem decode_container {A B : Type} (c t : String) (l : List A)
    (enc : A → Xml) (dec : Xml → B) (strip : A → B)
    (htag : ∀ x, ((enc x).tag == t) = true)
    (hrt : ∀ x ∈ l, dec (enc x) = strip x) :
    ((Xml.elem c [] none (l.map enc)).findall t).map dec = l.map strip := by
  unfold Xml.findall
  rw [show (Xml.elem c [] none (l.map enc)).children = l.map enc from rfl]
  rw [List.filter_eq_self.mpr
    (fun x hx => by
      obtain ⟨y, hy, hyx⟩ := List.mem_map.mp hx
      rw [← hyx]
      exact htag y)]
  rw [List.map_map]
  exact map_congr_mem (fun x hx => hrt x hx)

theorem map_stripPassport_idem (l : List Passport) :
    (l.map stripPassport).map stripPassport = l.map stripPassport := by
  rw [List.map_map]
  exact map_congr_mem (fun a _ => rfl)

theorem map_stripCustomField_idem (l : List CustomField) :
    (l.map stripCustomField).map stripCustomField = l.map stripCustomField := by
  rw [List.map_map]
  exact map_congr_mem (fun a _ => rfl)

theorem map_stripLoyalty_idem (l : List LoyaltyProgram) :
    (l.map stripLoyalty).map stripLoyalty = l.map stripLoyalty := by
  rw [List.map_map]
  exact map_congr_mem (fun a _ => rfl)

theorem omap_stripAir_idem (o : Option AirPreferences) :
    (o.map stripAir).map stripAir = o.map stripAir := by
  cases o <;> rfl

theorem omap_stripHotel_idem (o : Option HotelPreferences) :
    (o.map stripHotel).map stripHotel = o.map stripHotel := by
  cases o <;> rfl

theorem omap_stripCar_idem (o : Option CarPreferences) :
    (o.map stripCar).map stripCar = o.map stripCar := by
  cases o <;> rfl

theorem omap_stripRail_idem (o : Option RailPreferences) :
    (o.map stripRail).map stripRail = o.map stripRail := by
  cases o <;> rfl

/-- C3, amended: for a well-formed profile (valid dates, canonical TSA
gender, hotel and car blocks carrying at least one preference, nonempty
custom-field ids, unused-ticket currencies and loyalty vendor and account
data), encoding with every field group and decoding reproduces the profile
up to `stripProfile`, which zeroes exactly the sub-fields the wire shape
does not echo (passport `primary`, the membership lists of the preference
blocks, hotel smoking and restaurant flags, custom-field types, loyalty
status text, and the write-only discount codes). -/
theorem travel_profile_round_trip (p : TravelProfile) (h : p.wf) :
    stripProfile (ConcurSDK.parse_travel_profile_xml
      (p.to_update_xml (some allFieldGroups)) p.login_id) = stripProfile p := by
  obtain ⟨hpass, hvisa, htsa, hhot, hcarw, hcf, hut, hsw, hloy⟩ := h
  have hrc : (match (p.to_update_xml (some allFieldGroups)).find? "General" with
        | some g => g.findtextD "RuleClass" ""
        | none => "Default Travel Class") = p.rule_class := by
    rw [root_find_general]
    refine findtextD_strOpt _ _ _ ?_
    simp only [Xml.find?, Xml.children, List.find?_append, find?_optChild,
      textElem, Xml.tag]
    simp
  have htcid : (match (p.to_update_xml
          (some allFieldGroups)).find? "General" with
        | some g => g.findtextD "TravelConfigID" ""
        | none => "") = p.travel_config_id := by
    rw [root_find_general]
    refine findtextD_strOpt _ _ _ ?_
    simp only [Xml.find?, Xml.children, List.find?_append, find?_optChild,
      textElem, Xml.tag]
    simp
  have hnp : (strLower ((p.to_update_xml (some allFieldGroups)).findtextD
      "HasNoPassport" "false") == "true") = p.has_no_passport := by
    have hf := root_find_has_no_passport p
    cases hb : p.has_no_passport
    · rw [hb] at hf
      simp only [Bool.false_eq_true, if_false] at hf
      rw [findtextD_of_find?_none _ _ _ hf]
      decide
    · rw [hb] at hf
      simp only [if_true] at hf
      rw [findtextD_of_find?_some_text _ _ _ _ hf]
      decide
  have hni : (match (p.to_update_xml
          (some allFieldGroups)).find? "NationalIDs" with
        | some e => (e.findall "NationalID").map parseNationalID
        | none => []) = p.national_ids := by
    rw [root_find_national_ids]
    cases hc : p.national_ids with
    | nil => rfl
    | cons a tl =>
      show ((Xml.elem "NationalIDs" [] none
          ((a :: tl).map NationalID.to_xml_element)).findall "NationalID").map
          parseNationalID = a :: tl
      exact (decode_container "NationalIDs" "NationalID" (a :: tl)
        NationalID.to_xml_element parseNationalID (fun x => x)
        (fun x => rfl) (fun x _ => parseNationalID_roundtrip x)).trans (by simp)
  have hdl : (match (p.to_update_xml
          (some allFieldGroups)).find? "DriversLicenses" with
        | some e => (e.findall "DriversLicense").map parseDriversLicense
        | none => []) = p.drivers_licenses := by
    rw [root_find_drivers_licenses]
    cases hc : p.drivers_licenses with
    | nil => rfl
    | cons a tl =>
      show ((Xml.elem "DriversLicenses" [] none
          ((a :: tl).map DriversLicense.to_xml_element)).findall
          "DriversLicense").map parseDriversLicense = a :: tl
      exact (decode_container "DriversLicenses" "DriversLicense" (a :: tl)
        DriversLicense.to_xml_element parseDriversLicense (fun x => x)
        (fun x => rfl)
        (fun x _ => parseDriversLicense_roundtrip x)).trans (by simp)
  have hpassf : (match (p.to_update_xml
          (some allFieldGroups)).find? "Passports" with
        | some e => (e.findall "Passport").map parsePassport
        | none => []) = p.passports.map stripPassport := by
    rw [root_find_passports]
    cases hc : p.passports with
    | nil => rfl
    | cons a tl =>
      rw [hc] at hpass
      show ((Xml.elem "Passports" [] none
          ((a :: tl).map Passport.to_xml_element)).findall "Passport").map
          parsePassport = (a :: tl).map stripPassport
      exact decode_container "Passports" "Passport" (a :: tl)
        Passport.to_xml_element parsePassport stripPassport (fun x => rfl)
        (fun x hx => parsePassport_roundtrip x (hpass x hx).1 (hpass x hx).2)
  have hvisaf : (match (p.to_update_xml (some allFieldGroups)).find? "Visas" with
        | some e => (e.findall "Visa").map parseVisa
        | none => []) = p.visas := by
    rw [root_find_visas]
    cases hc : p.visas with
    | nil => rfl
    | cons a tl =>
      rw [hc] at hvisa
      show ((Xml.elem "Visas" [] none
          ((a :: tl).map Visa.to_xml_element)).findall "Visa").map
          parseVisa = a :: tl
      exact (decode_container "Visas" "Visa" (a :: tl)
        Visa.to_xml_element parseVisa (fun x => x) (fun x => rfl)
        (fun x hx => parseVisa_roundtrip x (hvisa x hx).1
          (hvisa x hx).2)).trans (by simp)
  have htsaf : ((p.to_update_xml (some allFieldGroups)).find? "TSAInfo").map
      parseTSAInfo = p.tsa_info := by
    rw [root_find_tsa_info]
    cases hc : p.tsa_info with
    | none => rfl
    | some ti =>
      rw [hc] at htsa
      show some (parseTSAInfo (TSAInfo.to_xml_element ti)) = some ti
      rw [parseTSAInfo_roundtrip ti htsa.1 htsa.2]
  have hratef : ((p.to_update_xml
      (some allFieldGroups)).find? "RatePreferences").map
      parseRatePreference = p.rate_preferences := by
    rw [root_find_rate_preferences]
    cases hc : p.rate_preferences with
    | none => rfl
    | some r =>
      show some (parseRatePreference (RatePreference.to_xml_element r)) = some r
      rw [parseRatePreference_roundtrip]
  have hdc : (match (p.to_update_xml
          (some allFieldGroups)).find? "DiscountCodes" with
        | some e => parseDiscountCodes e
        | none => []) =
      (if !p.discount_codes.isEmpty then
        parseDiscountCodes (Xml.elem "DiscountCodes" [] none
          (p.discount_codes.map DiscountCode.to_xml_element))
      else []) := by
    rw [root_find_discount_codes]
    cases hb : !p.discount_codes.isEmpty <;> rfl
  have haf : ((p.to_update_xml (some allFieldGroups)).find? "Air").map
      parseAirPreferences = p.air_preferences.map stripAir := by
    rw [root_find_air]
    cases hc : p.air_preferences with
    | none => rfl
    | some a =>
      show some (parseAirPreferences (AirPreferences.to_xml_element a)) =
          some (stripAir a)
      rw [parseAir_roundtrip]
  have hhf : ((p.to_update_xml (some allFieldGroups)).find? "Hotel").map
      parseHotelPreferences = p.hotel_preferences.map stripHotel := by
    rw [root_find_hotel]
    cases hc : p.hotel_preferences with
    | none => rfl
    | some hp =>
      rw [hc] at hhot
      show (HotelPreferences.to_xml_element hp).map parseHotelPreferences =
          some (stripHotel hp)
      exact parseHotel_roundtrip hp hhot
  have hcarf : ((p.to_update_xml (some allFieldGroups)).find? "Car").map
      parseCarPreferences = p.car_preferences.map stripCar := by
    rw [root_find_car]
    cases hc : p.car_preferences with
    | none => rfl
    | some cp =>
      rw [hc] at hcarw
      show (CarPreferences.to_xml_element cp).map parseCarPreferences =
          some (stripCar cp)
      exact parseCar_roundtrip cp hcarw
  have hrailf : ((p.to_update_xml (some allFieldGroups)).find? "Rail").map
      parseRailPreferences = p.rail_preferences.map stripRail := by
    rw [root_find_rail]
    cases hc : p.rail_preferences with
    | none => rfl
    | some r =>
      show some (parseRailPreferences (RailPreferences.to_xml_element r)) =
          some (stripRail r)
      rw [parseRail_roundtrip]
  have hcff : (match (p.to_update_xml
          (some allFieldGroups)).find? "CustomFields" with
        | some e => parseCustomFields e
        | none => []) = p.custom_fields.map stripCustomField := by
    rw [root_find_custom_fields]
    cases hc : p.custom_fields with
    | nil => rfl
    | cons a tl =>
      rw [hc] at hcf
      show parseCustomFields (Xml.elem "CustomFields" [] none
          ((a :: tl).map CustomField.to_xml_element)) =
          (a :: tl).map stripCustomField
      exact parseCustomFields_roundtrip (a :: tl) hcf
  have hutf : (match (p.to_update_xml
          (some allFieldGroups)).find? "UnusedTickets" with
        | some e => (e.findall "UnusedTicket").map parseUnusedTicket
        | none => []) = p.unused_tickets := by
    rw [root_find_unused_tickets]
    cases hc : p.unused_tickets with
    | nil => rfl
    | cons a tl =>
      rw [hc] at hut
      show ((Xml.elem "UnusedTickets" [] none
          ((a :: tl).map UnusedTicket.to_xml_element)).findall
          "UnusedTicket").map parseUnusedTicket = a :: tl
      exact (decode_container "UnusedTickets" "UnusedTicket" (a :: tl)
        UnusedTicket.to_xml_element parseUnusedTicket (fun x => x)
        (fun x => rfl)
        (fun x hx => parseUnusedTicket_roundtrip x (hut x hx))).trans (by simp)
  have hswf : (match (p.to_update_xml
          (some allFieldGroups)).find? "SouthwestUnusedTickets" with
        | some e => (e.findall "UnusedTicket").map parseUnusedTicket
        | none => []) = p.southwest_unused_tickets := by
    rw [root_find_southwest_unused_tickets]
    cases hc : p.southwest_unused_tickets with
    | nil => rfl
    | cons a tl =>
      rw [hc] at hsw
      show ((Xml.elem "SouthwestUnusedTickets" [] none
          ((a :: tl).map UnusedTicket.to_xml_element)).findall
          "UnusedTicket").map parseUnusedTicket = a :: tl
      exact (decode_container "SouthwestUnusedTickets" "UnusedTicket" (a :: tl)
        UnusedTicket.to_xml_element parseUnusedTicket (fun x => x)
        (fun x => rfl)
        (fun x hx => parseUnusedTicket_roundtrip x (hsw x hx))).trans (by simp)
  have hloyf : (match (p.to_update_xml
          (some allFieldGroups)).find? "AdvantageMemberships" with
        | some e => parseMemberships e
        | none => []) = p.loyalty_programs.map stripLoyalty := by
    rw [root_find_advantage_memberships]
    cases hc : p.loyalty_programs with
    | nil => rfl
    | cons a tl =>
      rw [hc] at hloy
      show parseMemberships (Xml.elem "AdvantageMemberships" [] none
          ((a :: tl).map (fun l => l.to_xml_element "Membership"))) =
          (a :: tl).map stripLoyalty
      exact parseMemberships_roundtrip (a :: tl) hloy
  unfold ConcurSDK.parse_travel_profile_xml
  rw [hrc, htcid, hnp, hni, hdl, hpassf, hvisaf, htsaf, hratef, hdc, haf,
    hhf, hcarf, hrailf, hcff, hutf, hswf, hloyf]
  unfold stripProfile
  simp only [map_stripPassport_idem, omap_stripAir_idem, omap_stripHotel_idem,
    omap_stripCar_idem, omap_stripRail_idem, map_stripCustomField_idem,
    map_stripLoyalty_idem]

/-- C3, counterexample to the unqualified statement: a profile whose TSA
gender is the abbreviation `M` — a field supported in both directions and
not among the claim's exclusions — is not reproduced field-for-field, since
the encoder normalises `M` to `Male` and the decoder returns the normalised
string. -/
theorem round_trip_gender_not_reproduced :
    (ConcurSDK.parse_travel_profile_xml
        (({ login_id := "user1", tsa_info := some { gender := "M" } } :
            TravelProfile).to_update_xml (some allFieldGroups))
        "user1").tsa_info.map (fun t => t.gender) ≠
      (some "M" : Option String) := by
  decide

/-- Witness for the amended round trip at a concrete well-formed profile. -/
theorem travel_profile_round_trip_witness :
    ({ login_id := "u1", rule_class := "Standard",
       national_ids := [{ id_number := "N1", country_code := "US" }],
       tsa_info := some { gender := "Male" },
       custom_fields := [{ field_id := "F1", value := "v1" }] } :
      TravelProfile).wf ∧
    stripProfile
      (ConcurSDK.parse_travel_profile_xml
        (({ login_id := "u1", rule_class := "Standard",
            national_ids := [{ id_number := "N1", country_code := "US" }],
            tsa_info := some { gender := "Male" },
            custom_fields := [{ field_id := "F1", value := "v1" }] } :
           TravelProfile).to_update_xml (some allFieldGroups))
        ({ login_id := "u1", rule_class := "Standard",
           national_ids := [{ id_number := "N1", country_code := "US" }],
           tsa_info := some { gender := "Male" },
           custom_fields := [{ field_id := "F1", value := "v1" }] } :
          TravelProfile).login_id) =
    stripProfile
      ({ login_id := "u1", rule_class := "Standard",
         national_ids := [{ id_number := "N1", country_code := "US" }],
         tsa_info := some { gender := "Male" },
         custom_fields := [{ field_id := "F1", value := "v1" }] } :
        TravelProfile) :=
  ⟨by decide,
   travel_profile_round_trip
     ({ login_id := "u1", rule_class := "Standard",
        national_ids := [{ id_number := "N1", country_code := "US" }],
        tsa_info := some { gender := "Male" },
        custom_fields := [{ field_id := "F1", value := "v1" }] } :
       TravelProfile)
     (by decide)⟩

end ConcurSpec
